import Mathlib

/-!
Shallow embedding of the firmware protocol core (command parser/dispatcher,
event queue, touch debouncer with one-shot expectations, LED animator) of
the `hardware` repository, together with theorems settling the frozen
claims about it.  Each definition mirrors the C++ function named in its
doc comment; machine integers are modelled as `Nat` with explicit mod-2^32
arithmetic where uint32 wraparound matters.
-/

-- ===========================================================================
-- Configuration constants (Config.h)
-- ===========================================================================

/-- Config.h: `MAX_LINE_LEN = 64`. -/
def MAX_LINE_LEN : Nat := 64

/-- Config.h: `COMMAND_QUEUE_SIZE = 8`. -/
def COMMAND_QUEUE_SIZE : Nat := 8

/-- Config.h: `EVENT_QUEUE_SIZE = 16`. -/
def EVENT_QUEUE_SIZE : Nat := 16

/-- Config.h: `NUM_TOUCH_SENSORS = 25`. -/
def NUM_TOUCH_SENSORS : Nat := 25

/-- Config.h: `NUM_POSITIONS = 25`. -/
def NUM_POSITIONS : Nat := 25

/-- Config.h: `DEBOUNCE_MS = 30`. -/
def DEBOUNCE_MS : Nat := 30

/-- Config.h: `SUCCESS_EXPANSION_RADIUS = 5`. -/
def SUCCESS_EXPANSION_RADIUS : Nat := 5

/-- Config.h: `ANIMATION_STEP_MS = 80`. -/
def ANIMATION_STEP_MS : Nat := 80

/-- CommandController.cpp `tickCommand`: `SENSORS_PER_TICK = 5`. -/
def SENSORS_PER_TICK : Nat := 5

/-- Config.h: strip lengths `NUM_LEDS_STRIP1 = NUM_LEDS_STRIP2 = 190`. -/
def NUM_LEDS_STRIP : Nat := 190

/-- Modelled from the spec: the "no id" sentinel `NO_COMMAND_ID` (its
definition sits in the truncated tail of Config.h; the spec only requires a
distinguished uint32 value meaning "no correlation id", rendered as absence
on the wire).  We use the all-ones uint32 value. -/
def NO_COMMAND_ID : Nat := 4294967295

/-- Modulus for uint32 arithmetic. -/
def M32 : Nat := 4294967296

/-- Elapsed time `now - last` computed in uint32 arithmetic, as the C code
does for `millis()` differences. -/
def elapsed32 (now last : Nat) : Nat :=
  (now % M32 + M32 - last % M32) % M32

-- ===========================================================================
-- Events and the bounded event queue (EventQueue.h / EventQueue.cpp)
-- ===========================================================================

/-- EventQueue.h `EventType`. -/
inductive EventType : Type where
  | ACK
  | DONE
  | ERR
  | TOUCH_DOWN
  | TOUCH_UP
  | TOUCHED_DOWN
  | TOUCHED_UP
  | SCANNED
  | RECALIBRATED
  | SCAN_RESULT
  | SCAN_DONE
  | INFO
  deriving DecidableEq, Repr

/-- EventQueue.h `Event` (the `valid` slot flag is a ring-buffer detail and
is represented by membership in the queue's list). -/
structure Event : Type where
  type : EventType
  action : String
  position : Char
  commandId : Nat
  extra : String
  deriving DecidableEq, Repr

/-- Position value `0` (no position) as a `Char`, mirroring `char position = 0`. -/
def noPosChar : Char := Char.ofNat 0

/-- EventQueue.cpp `queueAck`: the event it constructs. -/
def mkAck (action : String) (position : Char) (commandId : Nat) : Event :=
  { type := EventType.ACK, action := action, position := position,
    commandId := commandId, extra := "" }

/-- EventQueue.cpp `queueDone`: the event it constructs. -/
def mkDone (action : String) (position : Char) (commandId : Nat) : Event :=
  { type := EventType.DONE, action := action, position := position,
    commandId := commandId, extra := "" }

/-- EventQueue.cpp `queueError`: the event it constructs. -/
def mkError (reason : String) (commandId : Nat) : Event :=
  { type := EventType.ERR, action := "", position := noPosChar,
    commandId := commandId, extra := reason }

/-- EventQueue.cpp `queueTouchDown`: the event it constructs (spontaneous,
`commandId = NO_COMMAND_ID`). -/
def mkTouchDown (position : Char) : Event :=
  { type := EventType.TOUCH_DOWN, action := "", position := position,
    commandId := NO_COMMAND_ID, extra := "" }

/-- EventQueue.cpp `queueTouchUp`: the event it constructs (spontaneous,
`commandId = NO_COMMAND_ID`). -/
def mkTouchUp (position : Char) : Event :=
  { type := EventType.TOUCH_UP, action := "", position := position,
    commandId := NO_COMMAND_ID, extra := "" }

/-- EventQueue.cpp `queueTouchedDown`: the event it constructs. -/
def mkTouchedDown (position : Char) (commandId : Nat) : Event :=
  { type := EventType.TOUCHED_DOWN, action := "", position := position,
    commandId := commandId, extra := "" }

/-- EventQueue.cpp `queueTouchedUp`: the event it constructs. -/
def mkTouchedUp (position : Char) (commandId : Nat) : Event :=
  { type := EventType.TOUCHED_UP, action := "", position := position,
    commandId := commandId, extra := "" }

/-- EventQueue.cpp `queueScanned`: the event it constructs (the C code
copies at most 51 chars of the sensor list into `extra[52]`; a 25-sensor
list needs 49 chars, so no truncation occurs and we keep the string). -/
def mkScanned (sensorList : String) (commandId : Nat) : Event :=
  { type := EventType.SCANNED, action := "", position := noPosChar,
    commandId := commandId, extra := sensorList }

/-- EventQueue.cpp `queueRecalibrated`: the event it constructs
(`position = 0` is the "ALL" sentinel). -/
def mkRecalibrated (position : Char) (commandId : Nat) : Event :=
  { type := EventType.RECALIBRATED, action := "", position := position,
    commandId := commandId, extra := "" }

/-- EventQueue.cpp `queueInfo`: the event it constructs. -/
def mkInfo (commandId : Nat) : Event :=
  { type := EventType.INFO, action := "", position := noPosChar,
    commandId := commandId, extra := "" }

/-- EventQueue.cpp: the queue, modelled by its FIFO content in insertion
order (the C ring buffer `m_queue`/`m_head`/`m_tail`/`m_count` realizes
exactly this bounded FIFO). -/
structure EventQueue : Type where
  events : List Event
  deriving DecidableEq, Repr

namespace EventQueue

/-- EventQueue.cpp `isFull`: `m_count >= EVENT_QUEUE_SIZE`. -/
def isFull (q : EventQueue) : Bool :=
  EVENT_QUEUE_SIZE ≤ q.events.length

/-- EventQueue.cpp `enqueue`: drop the event and report `false` when the
queue already holds `EVENT_QUEUE_SIZE` events, else append. -/
def enqueue (q : EventQueue) (e : Event) : EventQueue × Bool :=
  if q.isFull then (q, false)
  else ({ events := q.events ++ [e] }, true)

/-- Result of an `enqueue` whose boolean result the caller discards (every
`queueX` call site in CommandController/TouchController ignores it). -/
def enqueue1 (q : EventQueue) (e : Event) : EventQueue :=
  (q.enqueue e).1

/-- EventQueue.cpp `queueAck` (boolean result discarded by all callers). -/
def queueAck (q : EventQueue) (action : String) (position : Char)
    (commandId : Nat) : EventQueue :=
  q.enqueue1 (mkAck action position commandId)

/-- EventQueue.cpp `queueDone`. -/
def queueDone (q : EventQueue) (action : String) (position : Char)
    (commandId : Nat) : EventQueue :=
  q.enqueue1 (mkDone action position commandId)

/-- EventQueue.cpp `queueError`. -/
def queueError (q : EventQueue) (reason : String) (commandId : Nat) :
    EventQueue :=
  q.enqueue1 (mkError reason commandId)

/-- EventQueue.cpp `queueScanned`. -/
def queueScanned (q : EventQueue) (sensorList : String) (commandId : Nat) :
    EventQueue :=
  q.enqueue1 (mkScanned sensorList commandId)

/-- EventQueue.cpp `queueRecalibrated`. -/
def queueRecalibrated (q : EventQueue) (position : Char) (commandId : Nat) :
    EventQueue :=
  q.enqueue1 (mkRecalibrated position commandId)

/-- EventQueue.cpp `queueInfo`. -/
def queueInfo (q : EventQueue) (commandId : Nat) : EventQueue :=
  q.enqueue1 (mkInfo commandId)

end EventQueue

-- ===========================================================================
-- Commands (CommandController.h) and the parser (CommandController.cpp)
-- ===========================================================================

/-- CommandController.h `CommandAction`. -/
inductive CommandAction : Type where
  | INVALID
  | SHOW
  | HIDE
  | SUCCESS
  | BLINK
  | STOP_BLINK
  | EXPECT_DOWN
  | EXPECT_UP
  | RECALIBRATE
  | RECALIBRATE_ALL
  | SCAN
  | SEQUENCE_COMPLETED
  | INFO
  | PING
  deriving DecidableEq, Repr

/-- CommandController.h `ParsedCommand`. -/
structure ParsedCommand : Type where
  action : CommandAction
  hasPosition : Bool
  position : Char
  positionIndex : Nat
  hasId : Bool
  id : Nat
  valid : Bool
  deriving DecidableEq, Repr

/-- CommandController.h `QueuedCommand` (`scanAddress` is the cursor used by
RECALIBRATE_ALL). -/
structure QueuedCommand : Type where
  command : ParsedCommand
  active : Bool
  startTime : Nat
  state : Nat
  scanAddress : Nat
  deriving DecidableEq, Repr

/-- Effective correlation id of a command: the ubiquitous C idiom
`cmd.hasId ? cmd.id : NO_COMMAND_ID`. -/
def effId (cmd : ParsedCommand) : Nat :=
  if cmd.hasId then cmd.id else NO_COMMAND_ID

/-- ASCII uppercase of a letter, as the C code computes `c - 32` on
lowercase letters. -/
def asciiUpper (c : Char) : Char :=
  if 'a' ≤ c ∧ c ≤ 'z' then Char.ofNat (c.toNat - 32) else c

/-- Modelled from the spec: `isspace` on a line already stripped of CR/LF
("tokens are whitespace-separated"; the bodies of the utility helpers
`skipWhitespace`/`findTokenEnd` sit in the truncated tail of
CommandController.cpp). -/
def isWsChar (c : Char) : Bool :=
  c = ' ' ∨ c = '\t'

/-- Modelled from the spec: CommandController `skipWhitespace`. -/
def skipWs (l : List Char) : List Char :=
  l.dropWhile isWsChar

/-- Modelled from the spec: the token starting at the cursor, delimited by
`findTokenEnd` (first whitespace or end of line). -/
def takeToken (l : List Char) : List Char :=
  l.takeWhile (fun c => ¬ isWsChar c)

/-- Modelled from the spec: the rest of the line after the current token. -/
def dropToken (l : List Char) : List Char :=
  l.dropWhile (fun c => ¬ isWsChar c)

/-- CommandController.cpp `parseAction`: length check plus `strcasecmpN`
against each keyword, expressed as case-folded comparison. -/
def parseAction (tok : List Char) : CommandAction :=
  let up := tok.map asciiUpper
  if up = String.toList "SHOW" then CommandAction.SHOW
  else if up = String.toList "HIDE" then CommandAction.HIDE
  else if up = String.toList "SUCCESS" then CommandAction.SUCCESS
  else if up = String.toList "BLINK" then CommandAction.BLINK
  else if up = String.toList "STOP_BLINK" then CommandAction.STOP_BLINK
  else if up = String.toList "EXPECT_DOWN" then CommandAction.EXPECT_DOWN
  else if up = String.toList "EXPECT_UP" then CommandAction.EXPECT_UP
  else if up = String.toList "RECALIBRATE" then CommandAction.RECALIBRATE
  else if up = String.toList "RECALIBRATE_ALL" then CommandAction.RECALIBRATE_ALL
  else if up = String.toList "SCAN" then CommandAction.SCAN
  else if up = String.toList "SEQUENCE_COMPLETED" then CommandAction.SEQUENCE_COMPLETED
  else if up = String.toList "INFO" then CommandAction.INFO
  else if up = String.toList "PING" then CommandAction.PING
  else CommandAction.INVALID

/-- CommandController.cpp `actionToString`. -/
def actionToString (a : CommandAction) : String :=
  match a with
  | CommandAction.SHOW => "SHOW"
  | CommandAction.HIDE => "HIDE"
  | CommandAction.SUCCESS => "SUCCESS"
  | CommandAction.BLINK => "BLINK"
  | CommandAction.STOP_BLINK => "STOP_BLINK"
  | CommandAction.EXPECT_DOWN => "EXPECT_DOWN"
  | CommandAction.EXPECT_UP => "EXPECT_UP"
  | CommandAction.RECALIBRATE => "RECALIBRATE"
  | CommandAction.RECALIBRATE_ALL => "RECALIBRATE_ALL"
  | CommandAction.SCAN => "SCAN"
  | CommandAction.SEQUENCE_COMPLETED => "SEQUENCE_COMPLETED"
  | CommandAction.INFO => "INFO"
  | CommandAction.PING => "PING"
  | CommandAction.INVALID => "UNKNOWN"

/-- CommandController.cpp `actionRequiresPosition`. -/
def actionRequiresPosition (a : CommandAction) : Bool :=
  match a with
  | CommandAction.SHOW => true
  | CommandAction.HIDE => true
  | CommandAction.SUCCESS => true
  | CommandAction.BLINK => true
  | CommandAction.STOP_BLINK => true
  | CommandAction.EXPECT_DOWN => true
  | CommandAction.EXPECT_UP => true
  | CommandAction.RECALIBRATE => true
  | _ => false

/-- CommandController.cpp `actionIsLongRunning`. -/
def actionIsLongRunning (a : CommandAction) : Bool :=
  match a with
  | CommandAction.SUCCESS => true
  | CommandAction.SCAN => true
  | CommandAction.RECALIBRATE_ALL => true
  | CommandAction.SEQUENCE_COMPLETED => true
  | _ => false

/-- CommandController `charToIndex` (its body sits in the truncated file
tail; `LedController::charToPosition` and `TouchController::letterToIndex`
in the source implement the identical mapping, which we mirror): letters
A..Y, case-insensitive, to 0..24, otherwise 255. -/
def charToIndex (c : Char) : Nat :=
  let c := if 'a' ≤ c ∧ c ≤ 'y' then Char.ofNat (c.toNat - 32) else c
  if 'A' ≤ c ∧ c ≤ 'Y' then c.toNat - 65 else 255

/-- Decimal digit test used by the `#id` loop (`*ptr >= '0' && *ptr <= '9'`). -/
def isDigitChar (c : Char) : Bool :=
  '0' ≤ c ∧ c ≤ '9'

/-- Value of the digit run after `#`, accumulated as
`id = id * 10 + (*ptr - '0')` on a uint32 (hence mod 2^32). -/
def digitsValue (l : List Char) : Nat :=
  l.foldl (fun acc c => (acc * 10 + (c.toNat - 48)) % M32) 0

/-- Fresh `ParsedCommand` as initialized at the top of `parseLine`. -/
def initCmd : ParsedCommand :=
  { action := CommandAction.INVALID, hasPosition := false,
    position := noPosChar, positionIndex := 255,
    hasId := false, id := NO_COMMAND_ID, valid := false }

/-- CommandController.cpp `parseLine`, token loop (`while (*ptr != '\0')`).
The `fuel` argument makes the recursion structural; `parseLine` supplies
`fuel` larger than the remaining length, which is never exhausted (each
iteration consumes at least one character). -/
def parseTokens (fuel : Nat) (q : EventQueue) (cmd : ParsedCommand)
    (rest : List Char) : EventQueue × Option ParsedCommand :=
  match fuel with
  | 0 => (q, none)
  | fuel + 1 =>
    match rest with
    | [] =>
      if actionRequiresPosition cmd.action ∧ ¬ cmd.hasPosition then
        (q.queueError "bad_format" (effId cmd), none)
      else
        (q, some { cmd with valid := true })
    | c :: rest' =>
      if c = '#' then
        let digits := rest'.takeWhile isDigitChar
        if digits = [] then
          (q.queueError "bad_format" NO_COMMAND_ID, none)
        else
          parseTokens fuel q
            { cmd with hasId := true, id := digitsValue digits }
            (skipWs (rest'.dropWhile isDigitChar))
      else
        let tok := takeToken (c :: rest')
        if tok.length = 1 then
          let idx := charToIndex c
          if idx ≠ 255 then
            parseTokens fuel q
              { cmd with hasPosition := true, position := asciiUpper c,
                         positionIndex := idx }
              (skipWs (dropToken (c :: rest')))
          else
            (q.queueError "unknown_position" (effId cmd), none)
        else if 1 < tok.length then
          (q.queueError "bad_format" (effId cmd), none)
        else
          parseTokens fuel q cmd (skipWs (dropToken (c :: rest')))

/-- CommandController.cpp `parseLine`, continuation after the optional
`PI>` prefix has been stripped: parse the action token, then run the token
loop over the remainder. -/
def parseAfterPrefix (q : EventQueue) (ptr : List Char) :
    EventQueue × Option ParsedCommand :=
  let actionTok := takeToken ptr
  if actionTok.length = 0 then
    (q.queueError "bad_format" NO_COMMAND_ID, none)
  else
    let act := parseAction actionTok
    if act = CommandAction.INVALID then
      (q.queueError "unknown_action" NO_COMMAND_ID, none)
    else
      parseTokens (ptr.length + 1) q { initCmd with action := act }
        (skipWs (dropToken ptr))

/-- CommandController.cpp `parseLine`: strips the optional `PI>` prefix,
parses the action token, then runs the token loop.  Returns the event
queue (to which any error was queued) and the parsed command on success. -/
def parseLine (q : EventQueue) (line : List Char) :
    EventQueue × Option ParsedCommand :=
  let ptr := skipWs line
  let ptr :=
    if List.isPrefixOf (String.toList "PI>") ptr then skipWs (ptr.drop 3)
    else ptr
  parseAfterPrefix q ptr

-- ===========================================================================
-- LED controller (LedController.h / LedController.cpp)
-- ===========================================================================

/-- LedController.h `PositionState`. -/
inductive PositionState : Type where
  | OFF
  | SHOWN
  | ANIMATING
  | EXPANDED
  | BLINKING
  deriving DecidableEq, Repr

/-- LedController.h per-position data. -/
structure PositionData : Type where
  state : PositionState
  animationStep : Nat
  lastAnimationTime : Nat
  blinkOn : Bool
  deriving DecidableEq, Repr

/-- LedController.h `StripId`. -/
inductive StripId : Type where
  | STRIP1
  | STRIP2
  deriving DecidableEq, Repr

/-- LedController.h `LedMapping` (int16 index, always nonnegative in the
table). -/
structure LedMapping : Type where
  strip : StripId
  index : Int
  deriving DecidableEq, Repr

/-- LedController.cpp `LED_MAPPINGS` table. -/
def LED_MAPPINGS : List LedMapping :=
  [ { strip := StripId.STRIP1, index := 153 }
  , { strip := StripId.STRIP1, index := 165 }
  , { strip := StripId.STRIP1, index := 177 }
  , { strip := StripId.STRIP2, index := 177 }
  , { strip := StripId.STRIP2, index := 165 }
  , { strip := StripId.STRIP2, index := 153 }
  , { strip := StripId.STRIP1, index := 130 }
  , { strip := StripId.STRIP1, index := 118 }
  , { strip := StripId.STRIP1, index := 105 }
  , { strip := StripId.STRIP1, index := 92 }
  , { strip := StripId.STRIP2, index := 105 }
  , { strip := StripId.STRIP2, index := 118 }
  , { strip := StripId.STRIP2, index := 130 }
  , { strip := StripId.STRIP1, index := 55 }
  , { strip := StripId.STRIP1, index := 67 }
  , { strip := StripId.STRIP1, index := 79 }
  , { strip := StripId.STRIP2, index := 79 }
  , { strip := StripId.STRIP2, index := 67 }
  , { strip := StripId.STRIP2, index := 55 }
  , { strip := StripId.STRIP1, index := 34 }
  , { strip := StripId.STRIP1, index := 22 }
  , { strip := StripId.STRIP1, index := 10 }
  , { strip := StripId.STRIP2, index := 10 }
  , { strip := StripId.STRIP2, index := 22 }
  , { strip := StripId.STRIP2, index := 34 } ]

/-- One `setPixelColor` effect recorded by `setLed`. -/
structure LedWrite : Type where
  strip : StripId
  index : Int
  r : Nat
  g : Nat
  b : Nat
  deriving DecidableEq, Repr

/-- LedController state: the 25 `m_positions`, the SEQUENCE_COMPLETED
animation state, the trace of pixel writes issued so far, and
`m_needsUpdate`. -/
structure LedState : Type where
  positions : List PositionData
  seqActive : Bool
  seqStep : Nat
  seqLastTime : Nat
  writes : List LedWrite
  needsUpdate : Bool
  deriving DecidableEq, Repr

/-- Default position data (all-off, as initialized by `begin`). -/
def posOff : PositionData :=
  { state := PositionState.OFF, animationStep := 0,
    lastAnimationTime := 0, blinkOn := false }

/-- LedController.cpp `getMapping` (never null for `position < NUM_POSITIONS`). -/
def getMapping (position : Nat) : Option LedMapping :=
  LED_MAPPINGS.get? position

/-- Colors from Config.h. -/
def COLOR_SHOW : Nat × Nat × Nat := (0, 0, 255)

/-- Config.h SUCCESS color (green). -/
def COLOR_SUCCESS : Nat × Nat × Nat := (0, 255, 0)

/-- Config.h BLINK color. -/
def COLOR_BLINK : Nat × Nat × Nat := (255, 100, 0)

/-- Config.h OFF color. -/
def COLOR_OFF : Nat × Nat × Nat := (0, 0, 0)

/-- LedController.cpp `setLed`: bounds-checked pixel write appended to the
write trace. -/
def setLed (led : LedState) (strip : StripId) (index : Int)
    (rgb : Nat × Nat × Nat) : LedState :=
  if index < 0 then led
  else if index < (NUM_LEDS_STRIP : Int) then
    { led with writes := led.writes ++
        [{ strip := strip, index := index, r := rgb.1, g := rgb.2.1, b := rgb.2.2 }] }
  else led

/-- LedController.cpp `clearExpandedRegion`: clear offsets
`-SUCCESS_EXPANSION_RADIUS .. SUCCESS_EXPANSION_RADIUS` around the center
(in-range ones only). -/
def clearExpandedRegion (led : LedState) (mapping : LedMapping) : LedState :=
  (List.range (2 * SUCCESS_EXPANSION_RADIUS + 1)).foldl
    (fun (acc : LedState) (k : Nat) =>
      let idx : Int := mapping.index + (k : Int) - (SUCCESS_EXPANSION_RADIUS : Int)
      if 0 ≤ idx ∧ idx < (NUM_LEDS_STRIP : Int) then
        setLed acc mapping.strip idx COLOR_OFF
      else acc)
    led

/-- Read position data, total with an all-off default (indices used by the
code are always in range). -/
def getPos (led : LedState) (position : Nat) : PositionData :=
  led.positions.getD position posOff

/-- Write position data. -/
def setPos (led : LedState) (position : Nat) (p : PositionData) : LedState :=
  { led with positions := led.positions.set position p }

/-- LedController.cpp `show`. -/
def ledShow (led : LedState) (position : Nat) : LedState × Bool :=
  if NUM_POSITIONS ≤ position then (led, false)
  else
    match getMapping position with
    | none => (led, false)
    | some mapping =>
      let p := getPos led position
      let led :=
        if p.state = PositionState.ANIMATING ∨ p.state = PositionState.EXPANDED then
          clearExpandedRegion led mapping
        else led
      let led := setPos led position
        { state := PositionState.SHOWN, animationStep := 0,
          lastAnimationTime := p.lastAnimationTime, blinkOn := p.blinkOn }
      let led := setLed led mapping.strip mapping.index COLOR_SHOW
      ({ led with needsUpdate := true }, true)

/-- LedController.cpp `hide`. -/
def ledHide (led : LedState) (position : Nat) : LedState × Bool :=
  if NUM_POSITIONS ≤ position then (led, false)
  else
    match getMapping position with
    | none => (led, false)
    | some mapping =>
      let p := getPos led position
      let led := clearExpandedRegion led mapping
      let led := setPos led position
        { state := PositionState.OFF, animationStep := 0,
          lastAnimationTime := p.lastAnimationTime, blinkOn := false }
      ({ led with needsUpdate := true }, true)

/-- LedController.cpp `blink`. -/
def ledBlink (led : LedState) (position : Nat) (now : Nat) : LedState × Bool :=
  if NUM_POSITIONS ≤ position then (led, false)
  else
    match getMapping position with
    | none => (led, false)
    | some mapping =>
      let p := getPos led position
      let led :=
        if p.state = PositionState.ANIMATING ∨ p.state = PositionState.EXPANDED then
          clearExpandedRegion led mapping
        else led
      let led := setPos led position
        { state := PositionState.BLINKING, animationStep := 0,
          lastAnimationTime := now, blinkOn := true }
      let led := setLed led mapping.strip mapping.index COLOR_BLINK
      ({ led with needsUpdate := true }, true)

/-- LedController.cpp `stopBlink`. -/
def ledStopBlink (led : LedState) (position : Nat) : LedState × Bool :=
  if NUM_POSITIONS ≤ position then (led, false)
  else
    let p := getPos led position
    if p.state ≠ PositionState.BLINKING then (led, true)
    else
      match getMapping position with
      | none => (led, false)
      | some mapping =>
        let led := setLed led mapping.strip mapping.index COLOR_OFF
        let led := setPos led position
          { state := PositionState.OFF, animationStep := 0,
            lastAnimationTime := p.lastAnimationTime, blinkOn := false }
        ({ led with needsUpdate := true }, true)

/-- LedController.cpp `success`: clear any previous expansion (or the
single shown LED), restart the expansion at step 0 with the center LED lit
green immediately. -/
def ledSuccess (led : LedState) (position : Nat) (now : Nat) : LedState × Bool :=
  if NUM_POSITIONS ≤ position then (led, false)
  else
    match getMapping position with
    | none => (led, false)
    | some mapping =>
      let p := getPos led position
      let led :=
        if p.state = PositionState.ANIMATING ∨ p.state = PositionState.EXPANDED then
          clearExpandedRegion led mapping
        else if p.state = PositionState.SHOWN then
          setLed led mapping.strip mapping.index COLOR_OFF
        else led
      let led := setPos led position
        { state := PositionState.ANIMATING, animationStep := 0,
          lastAnimationTime := now, blinkOn := p.blinkOn }
      let led := setLed led mapping.strip mapping.index COLOR_SUCCESS
      ({ led with needsUpdate := true }, true)

/-- LedController.cpp `isAnimationComplete`: complete whenever the position
is not ANIMATING (invalid positions count as complete). -/
def isAnimationComplete (led : LedState) (position : Nat) : Bool :=
  if NUM_POSITIONS ≤ position then true
  else (getPos led position).state ≠ PositionState.ANIMATING

/-- LedController.cpp `startSequenceCompletedAnimation`: activate the
celebration and fill both strips green. -/
def startSequenceCompletedAnimation (led : LedState) (now : Nat) : LedState :=
  let fill := fun (strip : StripId) (acc : LedState) =>
    (List.range NUM_LEDS_STRIP).foldl
      (fun a i => setLed a strip (i : Int) COLOR_SUCCESS) acc
  let led := fill StripId.STRIP1 led
  let led := fill StripId.STRIP2 led
  { led with seqActive := true, seqStep := 0, seqLastTime := now,
             needsUpdate := true }

/-- LedController.cpp `isSequenceCompletedAnimationComplete`. -/
def isSequenceCompletedAnimationComplete (led : LedState) : Bool :=
  ¬ led.seqActive

/-- LedController.cpp `updateAnimation`, state part (the function is only
invoked by `update` on positions in the ANIMATING state): gate on
`ANIMATION_STEP_MS`, advance the step, cap at the radius and transition to
EXPANDED. -/
def updateAnimationPos (p : PositionData) (now : Nat) : PositionData :=
  if elapsed32 now p.lastAnimationTime < ANIMATION_STEP_MS then p
  else
    let step := p.animationStep + 1
    if SUCCESS_EXPANSION_RADIUS ≤ step then
      { state := PositionState.EXPANDED,
        animationStep := SUCCESS_EXPANSION_RADIUS,
        lastAnimationTime := now, blinkOn := p.blinkOn }
    else
      { p with animationStep := step, lastAnimationTime := now }

/-- LedController.cpp `update`, restricted to one position: `updateAnimation`
is called if and only if the position is ANIMATING. -/
def stepAnimPos (p : PositionData) (now : Nat) : PositionData :=
  if p.state = PositionState.ANIMATING then updateAnimationPos p now else p

/-- Iterated `update` calls on one position at the given times. -/
def runAnim (p : PositionData) : List Nat → PositionData
  | [] => p
  | t :: ts => runAnim (stepAnimPos p t) ts

/-- Number of gated step advances over a list of update times: an update at
`t` advances when at least `ANIMATION_STEP_MS` have elapsed (uint32
arithmetic) since the last advance. -/
def gatedAdvances (last : Nat) : List Nat → Nat
  | [] => 0
  | t :: ts =>
    if elapsed32 t last < ANIMATION_STEP_MS then gatedAdvances last ts
    else gatedAdvances t ts + 1

-- ===========================================================================
-- Touch controller (TouchController.h / TouchController.cpp)
-- ===========================================================================

/-- TouchController.h per-sensor state. -/
structure TouchSensorState : Type where
  active : Bool
  currentTouched : Bool
  debouncedTouched : Bool
  lastReportedTouched : Bool
  lastChangeTime : Nat
  deriving DecidableEq, Repr

/-- TouchController.h `TouchExpectation`. -/
structure Expectation : Type where
  active : Bool
  commandId : Nat
  deriving DecidableEq, Repr

/-- Disarmed expectation, as written by the one-shot consumption and by
`clearExpectDown`/`clearExpectUp`. -/
def noExpect : Expectation :=
  { active := false, commandId := NO_COMMAND_ID }

/-- Default sensor record (inactive). -/
def sensorOff : TouchSensorState :=
  { active := false, currentTouched := false, debouncedTouched := false,
    lastReportedTouched := false, lastChangeTime := 0 }

/-- TouchController state: the 25 sensors, the per-sensor one-shot
expectations, and the trace of `recalibrate` register writes actually
issued (the I2C write itself is hardware, modelled as succeeding). -/
structure TouchState : Type where
  sensors : List TouchSensorState
  expectDown : List Expectation
  expectUp : List Expectation
  recalCalls : List Nat
  deriving DecidableEq, Repr

/-- TouchController.cpp `indexToLetter`. -/
def indexToLetter (index : Nat) : Char :=
  if index < NUM_TOUCH_SENSORS then Char.ofNat (65 + index) else '?'

namespace TouchState

/-- TouchController.cpp `recalibrate`: reject out-of-range and inactive
sensors, else issue the calibration register write (traced; the bus write
result is modelled as success). -/
def recalibrate (t : TouchState) (sensorIndex : Nat) : TouchState × Bool :=
  if NUM_TOUCH_SENSORS ≤ sensorIndex then (t, false)
  else if ¬ (t.sensors.getD sensorIndex sensorOff).active then (t, false)
  else ({ t with recalCalls := t.recalCalls ++ [sensorIndex] }, true)

/-- TouchController.cpp `setExpectDown`. -/
def setExpectDown (t : TouchState) (sensorIndex : Nat) (commandId : Nat) :
    TouchState :=
  if NUM_TOUCH_SENSORS ≤ sensorIndex then t
  else { t with expectDown :=
    t.expectDown.set sensorIndex { active := true, commandId := commandId } }

/-- TouchController.cpp `setExpectUp`. -/
def setExpectUp (t : TouchState) (sensorIndex : Nat) (commandId : Nat) :
    TouchState :=
  if NUM_TOUCH_SENSORS ≤ sensorIndex then t
  else { t with expectUp :=
    t.expectUp.set sensorIndex { active := true, commandId := commandId } }

/-- TouchController.cpp `buildActiveSensorList`, inner loop: walk the
sensors from index `i`, appending (comma-separated) letters of active
sensors while the `pos + needed > bufferSize` check admits them; `first`
tracks whether a letter has been written yet.  Returns the characters
written to the buffer. -/
def buildActiveAux (bufferSize : Nat) :
    List TouchSensorState → Nat → Nat → Bool → List Char
  | [], _, _, _ => []
  | s :: rest, i, pos, first =>
    if s.active then
      let needed := if first then 2 else 3
      if bufferSize < pos + needed then []
      else
        let pre : List Char := if first then [] else [',']
        pre ++ [indexToLetter i] ++
          buildActiveAux bufferSize rest (i + 1) (pos + pre.length + 1) false
    else
      buildActiveAux bufferSize rest (i + 1) pos first

/-- TouchController.cpp `buildActiveSensorList`; the caller in
`tickCommand` passes a 52-byte buffer. -/
def buildActiveSensorList (t : TouchState) (bufferSize : Nat) : String :=
  String.mk (buildActiveAux bufferSize t.sensors 0 0 true)

end TouchState

/-- Letters of the currently-active sensors, in index order counted from
`i`; auxiliary for the spec-side description of the SCAN payload. -/
def activeLettersFrom : List TouchSensorState → Nat → List Char
  | [], _ => []
  | s :: rest, i =>
    if s.active then indexToLetter i :: activeLettersFrom rest (i + 1)
    else activeLettersFrom rest (i + 1)

/-- Comma-joined list of the letters of active sensors in A..Y order,
written directly from the spec sentence for SCAN ("build the comma-joined
list of currently-active sensor letters"); compared against
`buildActiveSensorList` in the SCAN claim. -/
def specActiveLetters (sensors : List TouchSensorState) : String :=
  String.mk (List.intersperse ',' (activeLettersFrom sensors 0))

/-- TouchController.cpp `pollSensors`, restricted to sensor `i` with raw
reading `raw`: on a raw change, restart the stability window. -/
def pollSensor (now : Nat) (raw : Bool) (s : TouchSensorState) :
    TouchSensorState :=
  if ¬ s.active then s
  else if raw ≠ s.currentTouched then
    { s with currentTouched := raw, lastChangeTime := now }
  else s

/-- TouchController.cpp `processDebounce`, loop body for sensor `i`:
returns the updated sensor and expectation records together with the event
passed to the event queue, if any (each `queueX` call's boolean result is
discarded by the source). -/
def debounceSensorEmit (now : Nat) (i : Nat) (s : TouchSensorState)
    (eD eU : Expectation) :
    TouchSensorState × Expectation × Expectation × Option Event :=
  if ¬ s.active then (s, eD, eU, none)
  else if elapsed32 now s.lastChangeTime < DEBOUNCE_MS then (s, eD, eU, none)
  else if s.currentTouched = s.debouncedTouched then (s, eD, eU, none)
  else
    let s1 := { s with debouncedTouched := s.currentTouched }
    if s1.debouncedTouched = s1.lastReportedTouched then (s1, eD, eU, none)
    else
      let s2 := { s1 with lastReportedTouched := s1.debouncedTouched }
      let letter := indexToLetter i
      if s2.debouncedTouched then
        if eD.active then
          (s2, noExpect, eU, some (mkTouchedDown letter eD.commandId))
        else
          (s2, eD, eU, some (mkTouchDown letter))
      else
        if eU.active then
          (s2, eD, noExpect, some (mkTouchedUp letter eU.commandId))
        else
          (s2, eD, eU, some (mkTouchUp letter))

/-- Application of the emitted event to the event queue: the source calls
`m_eventQueue->queueX(...)` and ignores the boolean result, so a full
queue silently drops the event. -/
def applyEmit (q : EventQueue) : Option Event → EventQueue
  | none => q
  | some e => q.enqueue1 e

/-- TouchController.cpp `processDebounce` loop body for sensor `i`,
with the event threaded into the queue. -/
def processDebounceSensor (now : Nat) (i : Nat) (s : TouchSensorState)
    (eD eU : Expectation) (q : EventQueue) :
    TouchSensorState × Expectation × Expectation × EventQueue :=
  let r := debounceSensorEmit now i s eD eU
  (r.1, r.2.1, r.2.2.1, applyEmit q r.2.2.2)

/-- Bundle of one sensor's debouncer-visible state. -/
structure SensorSys : Type where
  s : TouchSensorState
  eD : Expectation
  eU : Expectation
  deriving DecidableEq, Repr

/-- One `TouchController::tick` slice for sensor `i`: `pollSensors` then
`processDebounce` (both at time `now`), with raw reading `raw`. -/
def sensorTick (i : Nat) (sys : SensorSys) (now : Nat) (raw : Bool) :
    SensorSys × Option Event :=
  let s1 := pollSensor now raw sys.s
  let r := debounceSensorEmit now i s1 sys.eD sys.eU
  ({ s := r.1, eD := r.2.1, eU := r.2.2.1 }, r.2.2.2)

/-- Iterated `sensorTick` over a list of (time, raw reading) inputs,
collecting the events passed to the queue. -/
def runSensor (i : Nat) (sys : SensorSys) :
    List (Nat × Bool) → SensorSys × List Event
  | [] => (sys, [])
  | (now, raw) :: rest =>
    let (sys1, emit) := sensorTick i sys now raw
    let (sysN, evs) := runSensor i sys1 rest
    (sysN, (emit.toList) ++ evs)

/-- Down-direction report: a TOUCH_DOWN or TOUCHED_DOWN event. -/
def isDownEvent (e : Event) : Bool :=
  e.type = EventType.TOUCH_DOWN ∨ e.type = EventType.TOUCHED_DOWN

/-- Up-direction report: a TOUCH_UP or TOUCHED_UP event. -/
def isUpEvent (e : Event) : Bool :=
  e.type = EventType.TOUCH_UP ∨ e.type = EventType.TOUCHED_UP

-- ===========================================================================
-- Command dispatcher (CommandController.cpp)
-- ===========================================================================

/-- The wired firmware state seen by CommandController: the LED controller
(by reference), the touch controller (nullable pointer), the event queue
and the 8 long-running command slots. -/
structure Machine : Type where
  led : LedState
  touch : Option TouchState
  queue : EventQueue
  slots : List QueuedCommand
  deriving DecidableEq, Repr

namespace Machine

/-- CommandController.cpp `isQueueFull`. -/
def isQueueFull (m : Machine) : Bool :=
  m.slots.all (fun s => s.active)

/-- CommandController.cpp `executeInstant`: the big switch over instant
actions (`id = cmd.hasId ? cmd.id : NO_COMMAND_ID` throughout). -/
def executeInstant (m : Machine) (cmd : ParsedCommand) (now : Nat) : Machine :=
  let id := effId cmd
  let action := actionToString cmd.action
  match cmd.action with
  | CommandAction.SHOW =>
    let (led, ok) := ledShow m.led cmd.positionIndex
    if ok then
      { m with led := led, queue := m.queue.queueAck action cmd.position id }
    else
      { m with led := led, queue := m.queue.queueError "command_failed" id }
  | CommandAction.HIDE =>
    let (led, ok) := ledHide m.led cmd.positionIndex
    if ok then
      { m with led := led, queue := m.queue.queueAck action cmd.position id }
    else
      { m with led := led, queue := m.queue.queueError "command_failed" id }
  | CommandAction.BLINK =>
    let (led, ok) := ledBlink m.led cmd.positionIndex now
    if ok then
      { m with led := led, queue := m.queue.queueAck action cmd.position id }
    else
      { m with led := led, queue := m.queue.queueError "command_failed" id }
  | CommandAction.STOP_BLINK =>
    let (led, ok) := ledStopBlink m.led cmd.positionIndex
    if ok then
      { m with led := led, queue := m.queue.queueAck action cmd.position id }
    else
      { m with led := led, queue := m.queue.queueError "command_failed" id }
  | CommandAction.RECALIBRATE =>
    match m.touch with
    | some t =>
      let (t1, ok) := t.recalibrate cmd.positionIndex
      if ok then
        { m with touch := some t1,
                 queue := (m.queue.queueAck action cmd.position id).queueRecalibrated
                   cmd.position id }
      else
        { m with touch := some t1, queue := m.queue.queueError "command_failed" id }
    | none => { m with queue := m.queue.queueError "no_touch_controller" id }
  | CommandAction.EXPECT_DOWN =>
    match m.touch with
    | some t =>
      { m with touch := some (t.setExpectDown cmd.positionIndex id),
               queue := m.queue.queueAck action cmd.position id }
    | none => { m with queue := m.queue.queueError "no_touch_controller" id }
  | CommandAction.EXPECT_UP =>
    match m.touch with
    | some t =>
      { m with touch := some (t.setExpectUp cmd.positionIndex id),
               queue := m.queue.queueAck action cmd.position id }
    | none => { m with queue := m.queue.queueError "no_touch_controller" id }
  | CommandAction.INFO => { m with queue := m.queue.queueInfo id }
  | CommandAction.PING => { m with queue := m.queue.queueAck "PING" noPosChar id }
  | _ => { m with queue := m.queue.queueError "unknown_action" id }

/-- A freshly admitted slot as filled at the top of `queueCommand`. -/
def freshSlot (cmd : ParsedCommand) (now : Nat) : QueuedCommand :=
  { command := cmd, active := true, startTime := now, state := 0,
    scanAddress := 0 }

/-- CommandController.cpp `queueCommand`: find the first free slot; if none
return false; else fill it, run the admission side effect (ACK / collaborator
check) and return true, except that SCAN and RECALIBRATE_ALL without a touch
controller queue `no_touch_controller`, free the slot again and return
false. -/
def queueCommand (m : Machine) (cmd : ParsedCommand) (now : Nat) :
    Machine × Bool :=
  match m.slots.findIdx? (fun s => !s.active) with
  | none => (m, false)
  | some i =>
    let slot := freshSlot cmd now
    let m := { m with slots := m.slots.set i slot }
    let id := effId cmd
    let action := actionToString cmd.action
    match cmd.action with
    | CommandAction.SUCCESS =>
      let (led, _) := ledSuccess m.led cmd.positionIndex now
      ({ m with led := led, queue := m.queue.queueAck action cmd.position id },
       true)
    | CommandAction.SCAN =>
      match m.touch with
      | some _ => ({ m with queue := m.queue.queueAck action noPosChar id }, true)
      | none =>
        ({ m with queue := m.queue.queueError "no_touch_controller" id,
                  slots := m.slots.set i { slot with active := false } },
         false)
    | CommandAction.RECALIBRATE_ALL =>
      match m.touch with
      | some _ => ({ m with queue := m.queue.queueAck action noPosChar id }, true)
      | none =>
        ({ m with queue := m.queue.queueError "no_touch_controller" id,
                  slots := m.slots.set i { slot with active := false } },
         false)
    | CommandAction.SEQUENCE_COMPLETED =>
      let led := startSequenceCompletedAnimation m.led now
      ({ m with led := led, queue := m.queue.queueAck action noPosChar id },
       true)
    | _ => (m, true)

/-- CommandController.cpp `executeCommand`: long-running actions go through
`queueCommand` and a false return queues `ERR busy`; instant actions run
synchronously. -/
def executeCommand (m : Machine) (cmd : ParsedCommand) (now : Nat) : Machine :=
  let id := effId cmd
  if actionIsLongRunning cmd.action then
    let (m1, ok) := m.queueCommand cmd now
    if ok then m1 else { m1 with queue := m1.queue.queueError "busy" id }
  else
    m.executeInstant cmd now

end Machine

/-- CommandController.cpp `tickCommand`, RECALIBRATE_ALL inner chunk loop
(`for i < SENSORS_PER_TICK && qc.scanAddress < NUM_TOUCH_SENSORS`),
structurally recursive on the per-tick budget `k`. -/
def recalChunk : Nat → TouchState → Nat → TouchState × Nat
  | 0, t, cursor => (t, cursor)
  | k + 1, t, cursor =>
    if cursor < NUM_TOUCH_SENSORS then
      let (t1, _) := t.recalibrate cursor
      recalChunk k t1 (cursor + 1)
    else (t, cursor)

namespace Machine

/-- CommandController.cpp `tickCommand` on one queued slot (the C function
mutates the slot by reference; we return machine and slot). -/
def tickCommand (m : Machine) (qc : QueuedCommand) : Machine × QueuedCommand :=
  if ¬ qc.active then (m, qc)
  else
    let id := effId qc.command
    match qc.command.action with
    | CommandAction.SUCCESS =>
      if isAnimationComplete m.led qc.command.positionIndex then
        ({ m with queue := m.queue.queueDone "SUCCESS" qc.command.position id },
         { qc with active := false })
      else (m, qc)
    | CommandAction.SCAN =>
      match m.touch with
      | some t =>
        let sensorList := t.buildActiveSensorList 52
        ({ m with queue := m.queue.queueScanned sensorList id },
         { qc with active := false })
      | none => (m, { qc with active := false })
    | CommandAction.RECALIBRATE_ALL =>
      match m.touch with
      | some t =>
        let (t1, cursor) := recalChunk SENSORS_PER_TICK t qc.scanAddress
        let qc1 := { qc with scanAddress := cursor }
        if NUM_TOUCH_SENSORS ≤ cursor then
          ({ m with touch := some t1,
                    queue := m.queue.queueRecalibrated noPosChar id },
           { qc1 with active := false })
        else ({ m with touch := some t1 }, qc1)
      | none => (m, { qc with active := false })
    | CommandAction.SEQUENCE_COMPLETED =>
      if isSequenceCompletedAnimationComplete m.led then
        ({ m with queue := m.queue.queueDone "SEQUENCE_COMPLETED" noPosChar id },
         { qc with active := false })
      else (m, qc)
    | _ => (m, { qc with active := false })

end Machine

/-- Iterated `tickCommand` on a single slot (the only active one). -/
def iterateTick : Nat → Machine × QueuedCommand → Machine × QueuedCommand
  | 0, p => p
  | n + 1, p => iterateTick n (p.1.tickCommand p.2)

-- ===========================================================================
-- Line assembler (CommandController.cpp pollSerial/extractLine)
-- ===========================================================================

/-- Receive ring buffer size: `sizeof(m_rxBuffer) = MAX_LINE_LEN * 2`. -/
def RX_SIZE : Nat := 128

/-- Receive ring buffer: the 128-byte array with head and tail cursors. -/
structure RxState : Type where
  buf : List Char
  head : Nat
  tail : Nat
  deriving DecidableEq, Repr

/-- Bytes pending between tail and head, as computed in `extractLine`
(`m_rxHead >= m_rxTail ? head - tail : RX_SIZE - tail + head`). -/
def pendingCount (rx : RxState) : Nat :=
  if rx.tail ≤ rx.head then rx.head - rx.tail
  else RX_SIZE - rx.tail + rx.head

/-- CommandController.cpp `extractLine`, newline scan loop
(`while pos != m_rxHead`), with `cnt` the number of slots left to scan. -/
def scanNewline (buf : List Char) : Nat → Nat → Bool
  | _, 0 => false
  | pos, k + 1 =>
    let c := buf.getD pos ' '
    if c = '\n' ∨ c = '\r' then true
    else scanNewline buf ((pos + 1) % RX_SIZE) k

/-- CommandController.cpp `extractLine`, terminator-coalescing loop (skip
any additional CR/LF after the first): returns the new tail. -/
def skipCRLF (buf : List Char) : Nat → Nat → Nat
  | t, 0 => t
  | t, k + 1 =>
    let c := buf.getD t ' '
    if c = '\n' ∨ c = '\r' then skipCRLF buf ((t + 1) % RX_SIZE) k
    else t

/-- CommandController.cpp `extractLine`, extraction loop (`while m_rxTail
!= m_rxHead`): consume bytes up to the newline, copying into the line
buffer while `m_lineIndex < MAX_LINE_LEN - 1` (further bytes set the
overflow flag and are dropped).  Returns (line, overflow, new tail). -/
def copyLine (buf : List Char) : Nat → Nat → Nat → Bool → List Char →
    List Char × Bool × Nat
  | t, 0, _, ovf, acc => (acc, ovf, t)
  | t, k + 1, lineIndex, ovf, acc =>
    let c := buf.getD t ' '
    let t1 := (t + 1) % RX_SIZE
    if c = '\n' ∨ c = '\r' then
      (acc, ovf, skipCRLF buf t1 k)
    else if lineIndex < MAX_LINE_LEN - 1 then
      copyLine buf t1 k (lineIndex + 1) ovf (acc ++ [c])
    else
      copyLine buf t1 k lineIndex true acc

/-- Result of `extractLine`: whether it returned true, the overflow flag,
the line buffer content, and the updated ring buffer. -/
structure ExtractResult : Type where
  got : Bool
  overflow : Bool
  line : List Char
  rx : RxState
  deriving DecidableEq, Repr

/-- CommandController.cpp `extractLine`: scan for a terminator; with none,
discard exactly `MAX_LINE_LEN` bytes and report overflow once the pending
span reaches `MAX_LINE_LEN`, else report no line; with one, consume and
return the line (terminators coalesced). -/
def extractLine (rx : RxState) : ExtractResult :=
  if rx.head = rx.tail then
    { got := false, overflow := false, line := [], rx := rx }
  else
    let pending := pendingCount rx
    if ¬ scanNewline rx.buf rx.tail pending then
      if MAX_LINE_LEN ≤ pending then
        { got := true, overflow := true, line := [],
          rx := { rx with tail := (rx.tail + MAX_LINE_LEN) % RX_SIZE } }
      else
        { got := false, overflow := false, line := [], rx := rx }
    else
      let (line, ovf, t1) := copyLine rx.buf rx.tail pending 0 false []
      { got := true, overflow := ovf, line := line,
        rx := { rx with tail := t1 } }

/-- CommandController.cpp `processCompletedLines`, one iteration of the
`while (extractLine())` loop: handle overflow (queue `line_too_long`), skip
empty lines, else parse and execute.  The boolean reports whether the loop
continues. -/
def processOneLine (m : Machine) (rx : RxState) (now : Nat) :
    Machine × RxState × Bool :=
  let r := extractLine rx
  if ¬ r.got then (m, r.rx, false)
  else if r.overflow then
    ({ m with queue := m.queue.queueError "line_too_long" NO_COMMAND_ID },
     r.rx, true)
  else
    match skipWs r.line with
    | [] => (m, r.rx, true)
    | line =>
      match parseLine m.queue line with
      | (q, none) => ({ m with queue := q }, r.rx, true)
      | (q, some cmd) =>
        (Machine.executeCommand { m with queue := q } cmd now, r.rx, true)

-- ===========================================================================
-- Helper lemmas
-- ===========================================================================

/-- Membership after a (possibly dropping) enqueue: either an old event or
the new one. -/
theorem mem_enqueue1 {q : EventQueue} {e e' : Event}
    (h : e' ∈ (q.enqueue1 e).events) : e' ∈ q.events ∨ e' = e := by
  unfold EventQueue.enqueue1 EventQueue.enqueue at h
  split at h
  · exact Or.inl h
  · simp only [List.mem_append, List.mem_singleton] at h
    exact h

/-- Length of `dropWhile` never exceeds the input length. -/
theorem length_dropWhile_le (p : α → Bool) (l : List α) :
    (l.dropWhile p).length ≤ l.length := by
  induction l with
  | nil => simp [List.dropWhile]
  | cons x xs ih =>
    simp only [List.dropWhile]
    split
    · simp only [List.length_cons]; omega
    · simp

-- ===========================================================================
-- Test fixtures (used by counterexamples and witnesses)
-- ===========================================================================

/-- Empty outgoing event queue. -/
def emptyQueue : EventQueue := { events := [] }

/-- An inactive command slot. -/
def inactiveSlot : QueuedCommand :=
  { command := initCmd, active := false, startTime := 0, state := 0,
    scanAddress := 0 }

/-- An occupied command slot (a queued SUCCESS command). -/
def busySlot : QueuedCommand :=
  { command := { initCmd with
                 action := CommandAction.SUCCESS, hasPosition := true,
                 position := 'A', positionIndex := 0 },
    active := true, startTime := 0, state := 0, scanAddress := 0 }

/-- LED controller state right after `begin()`. -/
def ledInit : LedState :=
  { positions := List.replicate NUM_POSITIONS posOff, seqActive := false,
    seqStep := 0, seqLastTime := 0, writes := [], needsUpdate := false }

/-- Touch controller state with all 25 sensors initialized and idle. -/
def touchAllActive : TouchState :=
  { sensors := List.replicate NUM_TOUCH_SENSORS
      { sensorOff with active := true },
    expectDown := List.replicate NUM_TOUCH_SENSORS noExpect,
    expectUp := List.replicate NUM_TOUCH_SENSORS noExpect,
    recalCalls := [] }

/-- Machine wired without a touch controller (null pointer), all slots free. -/
def machineNoTouch : Machine :=
  { led := ledInit, touch := none, queue := emptyQueue,
    slots := List.replicate COMMAND_QUEUE_SIZE inactiveSlot }

/-- Machine wired with the touch controller, all slots free. -/
def machineWithTouch : Machine :=
  { machineNoTouch with touch := some touchAllActive }

/-- `SCAN #7`. -/
def scanCmd7 : ParsedCommand :=
  { initCmd with action := CommandAction.SCAN, hasId := true, id := 7 }

/-- `RECALIBRATE_ALL #3`. -/
def recalAllCmd3 : ParsedCommand :=
  { initCmd with
    action := CommandAction.RECALIBRATE_ALL, hasId := true, id := 3 }

/-- `SUCCESS A #7`. -/
def successCmdA7 : ParsedCommand :=
  { initCmd with
    action := CommandAction.SUCCESS, hasPosition := true, position := 'A',
    positionIndex := 0, hasId := true, id := 7 }

-- ===========================================================================
-- C1 (code bug): SCAN / RECALIBRATE_ALL with no touch controller
-- ===========================================================================

/-- Claim C1, evaluated at the failing input: dispatching `SCAN #7` (resp.
`RECALIBRATE_ALL #3`) with no touch controller configured and all slots
free enqueues the `no_touch_controller` ERR, frees the slot — but then,
because `queueCommand` signals the rejection through the same `false`
return that means "queue full", `executeCommand` enqueues a second ERR
`busy` for the same dispatch, contradicting the claim that the
`no_touch_controller` ERR is the only error response. -/
theorem scan_without_touch_emits_no_touch_then_busy :
    (machineNoTouch.executeCommand scanCmd7 0).queue.events =
      [mkError "no_touch_controller" 7, mkError "busy" 7] ∧
    (machineNoTouch.executeCommand scanCmd7 0).slots.all
      (fun s => !s.active) = true ∧
    (machineNoTouch.executeCommand recalAllCmd3 0).queue.events =
      [mkError "no_touch_controller" 3, mkError "busy" 3] ∧
    (machineNoTouch.executeCommand recalAllCmd3 0).slots.all
      (fun s => !s.active) = true := by
  refine ⟨?_, ?_, ?_, ?_⟩ <;> rfl

-- ===========================================================================
-- C5: busy rejection when all 8 slots are active
-- ===========================================================================

/-- Claim C5: whenever all `COMMAND_QUEUE_SIZE = 8` slots are active,
dispatching any long-running action changes nothing except enqueuing a
single ERR `busy` carrying the command's correlation id: the LED state,
touch state, and slot array are all left untouched and nothing is
admitted. -/
theorem long_running_busy_when_queue_full (m : Machine) (cmd : ParsedCommand)
    (now : Nat) (hfull : m.isQueueFull = true)
    (hlr : actionIsLongRunning cmd.action = true) :
    m.executeCommand cmd now =
      { m with queue := m.queue.queueError "busy" (effId cmd) } := by
  have hidx : m.slots.findIdx? (fun s => !s.active) = none := by
    rw [List.findIdx?_eq_none_iff]
    intro x hx
    have hx' : x.active = true := by
      have := List.all_eq_true.mp hfull x hx
      simpa using this
    simp [hx']
  unfold Machine.executeCommand Machine.queueCommand
  rw [hlr, hidx]
  rfl

/-- Witness for C5 at a concrete machine with all 8 slots occupied and a
concrete SCAN dispatch. -/
theorem long_running_busy_when_queue_full_witness :
    ({ machineWithTouch with
        slots := List.replicate COMMAND_QUEUE_SIZE busySlot } : Machine).executeCommand
        scanCmd7 5 =
      { machineWithTouch with
        slots := List.replicate COMMAND_QUEUE_SIZE busySlot,
        queue := emptyQueue.queueError "busy" 7 } := by
  exact long_running_busy_when_queue_full _ scanCmd7 5 (by rfl) (by rfl)

-- ===========================================================================
-- C9: SCAN completes in a single tick with the joined sensor-letter payload
-- ===========================================================================

/-- The buffer-bounded list builder agrees with the plain comma-join as
long as the buffer budget covers all remaining active sensors (each one
costs at most 2 characters plus the trailing NUL). -/
theorem buildActiveAux_eq_join (l : List TouchSensorState) :
    ∀ (i pos : Nat) (first : Bool) (bufSize : Nat),
      pos + 2 * l.countP (fun s => s.active) + 1 ≤ bufSize →
      TouchState.buildActiveAux bufSize l i pos first =
        (if first ∨ activeLettersFrom l i = [] then [] else [',']) ++
          List.intersperse ',' (activeLettersFrom l i) := by
  induction l with
  | nil =>
    intro i pos first bufSize _
    simp [TouchState.buildActiveAux, activeLettersFrom]
  | cons s rest ih =>
    intro i pos first bufSize h
    rw [List.countP_cons] at h
    by_cases hs : s.active = true
    · simp only [hs, if_true] at h
      have hbudget : ¬ bufSize < pos + (if first then 2 else 3) := by
        by_cases hf : first <;> simp [hf] <;> omega
      have hrec := ih (i + 1) (pos + (if first then ([] : List Char) else [',']).length + 1)
        false bufSize (by by_cases hf : first <;> simp [hf] <;> omega)
      simp only [TouchState.buildActiveAux, hs, if_true, activeLettersFrom]
      rw [if_neg hbudget, hrec]
      cases hrest : activeLettersFrom rest (i + 1) with
      | nil => by_cases hf : first <;> simp [hf, hrest]
      | cons c tl =>
        by_cases hf : first <;>
          simp [hf, hrest, List.intersperse_cons_cons]
    · have hs' : s.active = false := by simpa using hs
      simp only [hs', Bool.false_eq_true, if_false] at h
      simp only [TouchState.buildActiveAux, hs', Bool.false_eq_true, if_false,
        activeLettersFrom]
      exact ih (i + 1) pos first bufSize (by omega)

/-- `buildActiveSensorList` into the 52-byte buffer used by `tickCommand`
never truncates for at most 25 sensors and equals the spec's comma-join. -/
theorem buildActiveSensorList_eq_spec (t : TouchState)
    (h : t.sensors.length ≤ NUM_TOUCH_SENSORS) :
    t.buildActiveSensorList 52 = specActiveLetters t.sensors := by
  have hcnt : t.sensors.countP (fun s => s.active) ≤ NUM_TOUCH_SENSORS :=
    le_trans (List.countP_le_length _) h
  unfold TouchState.buildActiveSensorList specActiveLetters
  rw [buildActiveAux_eq_join t.sensors 0 0 true 52 (by unfold NUM_TOUCH_SENSORS at hcnt; omega)]
  simp

/-- Claim C9: an admitted SCAN command completes on its first tick — the
tick enqueues exactly one SCANNED event whose payload is the comma-joined
list of active-sensor letters in A..Y order, carrying the command's
correlation id, frees the slot in that same tick, and (second conjunct) an
inactive slot is never ticked again, so SCAN never spans multiple ticks. -/
theorem scan_single_tick_scanned_payload (m : Machine) (t : TouchState)
    (qc : QueuedCommand) (ht : m.touch = some t)
    (hlen : t.sensors.length ≤ NUM_TOUCH_SENSORS) (hact : qc.active = true)
    (hcmd : qc.command.action = CommandAction.SCAN) :
    m.tickCommand qc =
      ({ m with queue := m.queue.queueScanned (specActiveLetters t.sensors) (effId qc.command) },
       { qc with active := false }) ∧
    (∀ (m' : Machine) (qc' : QueuedCommand), qc'.active = false →
      m'.tickCommand qc' = (m', qc')) := by
  constructor
  · unfold Machine.tickCommand
    rw [hcmd, hact, ht]
    simp [buildActiveSensorList_eq_spec t hlen]
  · intro m' qc' hq
    unfold Machine.tickCommand
    simp [hq]

/-- The `SCAN #7` slot as admitted. -/
def scanSlot7 : QueuedCommand :=
  { command := scanCmd7, active := true, startTime := 0, state := 0,
    scanAddress := 0 }

/-- Witness for C9 on the concrete all-active machine. -/
theorem scan_single_tick_scanned_payload_witness :
    machineWithTouch.tickCommand scanSlot7 =
      ({ machineWithTouch with queue := machineWithTouch.queue.queueScanned (specActiveLetters touchAllActive.sensors) (effId scanCmd7) },
       { scanSlot7 with active := false }) :=
  (scan_single_tick_scanned_payload machineWithTouch touchAllActive scanSlot7
    rfl (by simp [touchAllActive]) rfl rfl).1

-- ===========================================================================
-- C3: RECALIBRATE_ALL progresses 5 sensors per tick, 5 ticks for 25
-- ===========================================================================

/-- Cursor arithmetic of the per-tick chunk loop: starting at a cursor at
most 25, a budget of `k` advances the cursor to `min (c + k) 25`. -/
theorem recalChunk_cursor (k : Nat) :
    ∀ (t : TouchState) (c : Nat), c ≤ NUM_TOUCH_SENSORS →
      (recalChunk k t c).2 = min (c + k) NUM_TOUCH_SENSORS := by
  induction k with
  | zero =>
    intro t c hc
    unfold recalChunk NUM_TOUCH_SENSORS at *
    simp only
    omega
  | succ k ih =>
    intro t c hc
    unfold recalChunk
    split
    · rename_i hlt
      rcases hr : t.recalibrate c with ⟨t1, b⟩
      simp only [hr]
      rw [ih t1 (c + 1) (by unfold NUM_TOUCH_SENSORS at *; omega)]
      unfold NUM_TOUCH_SENSORS at *
      omega
    · rename_i hge
      unfold NUM_TOUCH_SENSORS at *
      simp only
      omega

/-- One recalibration attempt appends at most one traced register write. -/
theorem recalibrate_calls_le (t : TouchState) (c : Nat) :
    (t.recalibrate c).1.recalCalls.length ≤ t.recalCalls.length + 1 := by
  unfold TouchState.recalibrate
  split
  · simp
  · split
    · simp
    · simp

/-- The chunk loop issues at most `k` recalibration register writes. -/
theorem recalChunk_calls_le (k : Nat) :
    ∀ (t : TouchState) (c : Nat),
      (recalChunk k t c).1.recalCalls.length ≤ t.recalCalls.length + k := by
  induction k with
  | zero => intro t c; unfold recalChunk; simp
  | succ k ih =>
    intro t c
    unfold recalChunk
    split
    · rcases hr : t.recalibrate c with ⟨t1, b⟩
      have hone := recalibrate_calls_le t c
      rw [hr] at hone
      simp only [hr]
      have := ih t1 (c + 1)
      simp only at hone
      omega
    · simp

/-- The chunk loop never moves the cursor backwards, and never moves it
beyond the sensor count. -/
theorem recalChunk_cursor_mono (k : Nat) :
    ∀ (t : TouchState) (c : Nat),
      c ≤ (recalChunk k t c).2 ∧
      (recalChunk k t c).2 ≤ max c NUM_TOUCH_SENSORS := by
  induction k with
  | zero => intro t c; unfold recalChunk; simp
  | succ k ih =>
    intro t c
    unfold recalChunk
    split
    · rename_i hlt
      rcases hr : t.recalibrate c with ⟨t1, b⟩
      simp only [hr]
      have := ih t1 (c + 1)
      unfold NUM_TOUCH_SENSORS at *
      omega
    · simp

/-- One `tickCommand` on an active RECALIBRATE_ALL slot with a touch
controller: run the 5-sensor chunk, then complete (RECALIBRATED "ALL" and
slot freed) exactly when the cursor has reached the end. -/
theorem tick_recalAll (m : Machine) (t : TouchState) (qc : QueuedCommand)
    (ht : m.touch = some t) (hact : qc.active = true)
    (hcmd : qc.command.action = CommandAction.RECALIBRATE_ALL) :
    m.tickCommand qc =
      (if NUM_TOUCH_SENSORS ≤ (recalChunk SENSORS_PER_TICK t qc.scanAddress).2 then
        ({ m with touch := some (recalChunk SENSORS_PER_TICK t qc.scanAddress).1,
                  queue := m.queue.queueRecalibrated noPosChar (effId qc.command) },
         { qc with scanAddress := (recalChunk SENSORS_PER_TICK t qc.scanAddress).2,
                   active := false })
       else
        ({ m with touch := some (recalChunk SENSORS_PER_TICK t qc.scanAddress).1 },
         { qc with scanAddress := (recalChunk SENSORS_PER_TICK t qc.scanAddress).2 })) := by
  unfold Machine.tickCommand
  rcases hr : recalChunk SENSORS_PER_TICK t qc.scanAddress with ⟨t1, c1⟩
  simp only [hcmd, hact, ht, hr]
  simp

/-- Mid-sweep tick: with more than a chunk still to go, the tick advances
the cursor by exactly `SENSORS_PER_TICK` and changes nothing else but the
touch-side recalibration trace. -/
theorem tick_recalAll_mid (m : Machine) (t : TouchState) (qc : QueuedCommand)
    (ht : m.touch = some t) (hact : qc.active = true)
    (hcmd : qc.command.action = CommandAction.RECALIBRATE_ALL)
    (hbound : qc.scanAddress + SENSORS_PER_TICK < NUM_TOUCH_SENSORS) :
    m.tickCommand qc =
      ({ m with touch := some (recalChunk SENSORS_PER_TICK t qc.scanAddress).1 },
       { qc with scanAddress := qc.scanAddress + SENSORS_PER_TICK }) := by
  rw [tick_recalAll m t qc ht hact hcmd]
  have hcur := recalChunk_cursor SENSORS_PER_TICK t qc.scanAddress
    (by unfold NUM_TOUCH_SENSORS SENSORS_PER_TICK at *; omega)
  rw [hcur, Nat.min_eq_left (by omega)]
  rw [if_neg (by omega)]

/-- Final sweep tick: with exactly one chunk left, the tick advances the
cursor to the end, enqueues RECALIBRATED with the "ALL" sentinel and the
command's id, and frees the slot. -/
theorem tick_recalAll_last (m : Machine) (t : TouchState) (qc : QueuedCommand)
    (ht : m.touch = some t) (hact : qc.active = true)
    (hcmd : qc.command.action = CommandAction.RECALIBRATE_ALL)
    (hbound : qc.scanAddress + SENSORS_PER_TICK = NUM_TOUCH_SENSORS) :
    m.tickCommand qc =
      ({ m with touch := some (recalChunk SENSORS_PER_TICK t qc.scanAddress).1,
                queue := m.queue.queueRecalibrated noPosChar (effId qc.command) },
       { qc with scanAddress := NUM_TOUCH_SENSORS, active := false }) := by
  rw [tick_recalAll m t qc ht hact hcmd]
  have hcur := recalChunk_cursor SENSORS_PER_TICK t qc.scanAddress
    (by unfold NUM_TOUCH_SENSORS SENSORS_PER_TICK at *; omega)
  rw [hcur, Nat.min_eq_right (by omega)]
  rw [if_pos (by omega)]

/-- Evaluating the iteration from the right: one more tick applies to the
iterated state. -/
theorem iterateTick_succ_right (n : Nat) :
    ∀ p : Machine × QueuedCommand,
      iterateTick (n + 1) p =
        (iterateTick n p).1.tickCommand (iterateTick n p).2 := by
  induction n with
  | zero => intro p; rfl
  | succ n ih =>
    intro p
    show iterateTick (n + 1) (p.1.tickCommand p.2) = _
    rw [ih (p.1.tickCommand p.2)]
    rfl

/-- Progress invariant for an in-flight RECALIBRATE_ALL slot: as long as
the sweep is not finished, `j` ticks advance the cursor by exactly
`SENSORS_PER_TICK * j`, keep the slot active, and change nothing in the
machine but the touch-side recalibration trace. -/
theorem iterate_recalAll_progress (j : Nat) :
    ∀ (mi : Machine) (ti : TouchState) (qi : QueuedCommand),
      mi.touch = some ti → qi.active = true →
      qi.command.action = CommandAction.RECALIBRATE_ALL →
      qi.scanAddress + SENSORS_PER_TICK * j < NUM_TOUCH_SENSORS →
      ∃ t2, (iterateTick j (mi, qi)).1 = { mi with touch := some t2 } ∧
        (iterateTick j (mi, qi)).2 =
          { qi with scanAddress := qi.scanAddress + SENSORS_PER_TICK * j } := by
  induction j with
  | zero =>
    intro mi ti qi hti hai hci _
    refine ⟨ti, ?_, ?_⟩
    · cases mi; simp_all [iterateTick]
    · cases qi; simp [iterateTick]
  | succ j ih =>
    intro mi ti qi hti hai hci hbound
    have hstep := tick_recalAll_mid mi ti qi hti hai hci
      (by simp only [SENSORS_PER_TICK, NUM_TOUCH_SENSORS] at hbound ⊢; omega)
    show ∃ t2, (iterateTick j (mi.tickCommand qi)).1 = _ ∧
      (iterateTick j (mi.tickCommand qi)).2 = _
    rw [hstep]
    obtain ⟨t2, h1, h2⟩ := ih
      { mi with touch := some (recalChunk SENSORS_PER_TICK ti qi.scanAddress).1 }
      (recalChunk SENSORS_PER_TICK ti qi.scanAddress).1
      { qi with scanAddress := qi.scanAddress + SENSORS_PER_TICK }
      rfl hai hci
      (by simp only [SENSORS_PER_TICK, NUM_TOUCH_SENSORS] at hbound ⊢; omega)
    refine ⟨t2, ?_, ?_⟩
    · rw [h1]
    · rw [h2]
      cases qi
      simp only [SENSORS_PER_TICK]
      simp
      omega

/-- Any single `tickCommand` leaves the touch controller unchanged or
replaces it with the result of one bounded recalibration chunk. -/
theorem tick_touch_shape (m' : Machine) (t' : TouchState)
    (qc' : QueuedCommand) (ht' : m'.touch = some t') :
    (m'.tickCommand qc').1.touch = m'.touch ∨
      (∃ c, (m'.tickCommand qc').1.touch =
        some (recalChunk SENSORS_PER_TICK t' c).1) := by
  unfold Machine.tickCommand
  split
  · exact Or.inl rfl
  · split
    case _ => split <;> exact Or.inl rfl
    case _ => split <;> exact Or.inl rfl
    case _ =>
      rw [ht']
      split
      · rename_i tx heq
        cases heq
        refine Or.inr ⟨qc'.scanAddress, ?_⟩
        rcases hr : recalChunk SENSORS_PER_TICK t' qc'.scanAddress with ⟨t1, c1⟩
        split
        rename_i t2 c2 heq2
        cases heq2
        split <;> rfl
      · rename_i heq
        simp at heq
    case _ => split <;> exact Or.inl rfl
    case _ => exact Or.inl rfl

/-- Any single `tickCommand` issues at most `SENSORS_PER_TICK`
recalibration register writes. -/
theorem tick_touch_calls_le (m' : Machine) (t' t'' : TouchState)
    (qc' : QueuedCommand) (ht' : m'.touch = some t')
    (htick : (m'.tickCommand qc').1.touch = some t'') :
    t''.recalCalls.length ≤ t'.recalCalls.length + SENSORS_PER_TICK := by
  rcases tick_touch_shape m' t' qc' ht' with h | ⟨c, h⟩
  · rw [h, ht'] at htick
    have : t' = t'' := Option.some.inj htick
    subst this
    omega
  · rw [h] at htick
    have : (recalChunk SENSORS_PER_TICK t' c).1 = t'' := Option.some.inj htick
    subst this
    exact recalChunk_calls_le SENSORS_PER_TICK t' c

/-- Any single `tickCommand` either leaves a slot's cursor unchanged or
runs it through one recalibration chunk. -/
theorem tick_cursor_shape (m' : Machine) (qc' : QueuedCommand) :
    (m'.tickCommand qc').2.scanAddress = qc'.scanAddress ∨
      ∃ t, m'.touch = some t ∧
        (m'.tickCommand qc').2.scanAddress =
          (recalChunk SENSORS_PER_TICK t qc'.scanAddress).2 := by
  unfold Machine.tickCommand
  split
  · exact Or.inl rfl
  · split
    case _ => split <;> exact Or.inl rfl
    case _ => split <;> exact Or.inl rfl
    case _ =>
      split
      · rename_i tx heq
        refine Or.inr ⟨tx, heq, ?_⟩
        split
        rename_i t2 c2 heq2
        rw [heq2]
        split <;> rfl
      · exact Or.inl rfl
    case _ => split <;> exact Or.inl rfl
    case _ => exact Or.inl rfl

/-- The slot cursor never moves backwards in a tick, and never beyond the
sensor count it has already reached. -/
theorem tick_cursor_mono (m' : Machine) (qc' : QueuedCommand) :
    qc'.scanAddress ≤ (m'.tickCommand qc').2.scanAddress ∧
    (m'.tickCommand qc').2.scanAddress ≤ max qc'.scanAddress NUM_TOUCH_SENSORS := by
  rcases tick_cursor_shape m' qc' with h | ⟨t, _, h⟩
  · rw [h]
    exact ⟨le_refl _, le_max_left _ _⟩
  · rw [h]
    exact recalChunk_cursor_mono SENSORS_PER_TICK t qc'.scanAddress

/-- Claim C3: an admitted RECALIBRATE_ALL over the 25 sensors advances its
cursor by exactly 5 per tick (0,5,10,15,20,25), stays active through 4
ticks, enqueues nothing before the 5th tick, and on the 5th (and only
then) enqueues RECALIBRATED with the "ALL" sentinel position and the
command's correlation id and frees the slot; moreover any single tick
issues at most 5 recalibrations and never moves a cursor backwards. -/
theorem recalibrate_all_chunked_five_ticks (m : Machine) (t : TouchState)
    (cmd : ParsedCommand) (start : Nat)
    (ht : m.touch = some t)
    (hcmd : cmd.action = CommandAction.RECALIBRATE_ALL)
    (hlen : t.sensors.length = NUM_TOUCH_SENSORS) :
    (∀ j : Nat, j ≤ 5 →
      (iterateTick j (m, Machine.freshSlot cmd start)).2.scanAddress =
        SENSORS_PER_TICK * j ∧
      (iterateTick j (m, Machine.freshSlot cmd start)).2.active =
        decide (j < 5)) ∧
    (∀ j : Nat, j < 5 →
      (iterateTick j (m, Machine.freshSlot cmd start)).1.queue = m.queue) ∧
    (iterateTick 5 (m, Machine.freshSlot cmd start)).1.queue =
      m.queue.queueRecalibrated noPosChar (effId cmd) ∧
    (∀ (m' : Machine) (t' t'' : TouchState) (qc' : QueuedCommand),
      m'.touch = some t' → (m'.tickCommand qc').1.touch = some t'' →
      t''.recalCalls.length ≤ t'.recalCalls.length + SENSORS_PER_TICK) ∧
    (∀ (m' : Machine) (qc' : QueuedCommand),
      qc'.scanAddress ≤ (m'.tickCommand qc').2.scanAddress ∧
      (m'.tickCommand qc').2.scanAddress ≤
        max qc'.scanAddress NUM_TOUCH_SENSORS) := by
  have hfresh : (Machine.freshSlot cmd start).active = true := rfl
  have hfa : (Machine.freshSlot cmd start).command.action =
      CommandAction.RECALIBRATE_ALL := hcmd
  have hprog : ∀ j : Nat, j ≤ 4 →
      ∃ t2, (iterateTick j (m, Machine.freshSlot cmd start)).1 =
          { m with touch := some t2 } ∧
        (iterateTick j (m, Machine.freshSlot cmd start)).2 =
          { Machine.freshSlot cmd start with
            scanAddress := SENSORS_PER_TICK * j } := by
    intro j hj
    obtain ⟨t2, h1, h2⟩ := iterate_recalAll_progress j m t
      (Machine.freshSlot cmd start) ht hfresh hfa
      (by show 0 + SENSORS_PER_TICK * j < NUM_TOUCH_SENSORS
          simp only [SENSORS_PER_TICK, NUM_TOUCH_SENSORS]
          omega)
    refine ⟨t2, h1, ?_⟩
    rw [h2]
    simp [Machine.freshSlot]
  have hfive : iterateTick 5 (m, Machine.freshSlot cmd start) =
      (((iterateTick 4 (m, Machine.freshSlot cmd start)).1.tickCommand
        (iterateTick 4 (m, Machine.freshSlot cmd start)).2)) :=
    iterateTick_succ_right 4 _
  obtain ⟨t4, h41, h42⟩ := hprog 4 (by omega)
  have hlast := tick_recalAll_last { m with touch := some t4 } t4
    { Machine.freshSlot cmd start with scanAddress := SENSORS_PER_TICK * 4 }
    rfl hfresh hfa
    (by show SENSORS_PER_TICK * 4 + SENSORS_PER_TICK = NUM_TOUCH_SENSORS
        simp only [SENSORS_PER_TICK, NUM_TOUCH_SENSORS])
  have h5 : iterateTick 5 (m, Machine.freshSlot cmd start) =
      ({ m with
         touch := some (recalChunk SENSORS_PER_TICK t4 (SENSORS_PER_TICK * 4)).1,
         queue := m.queue.queueRecalibrated noPosChar (effId cmd) },
       { Machine.freshSlot cmd start with
         scanAddress := NUM_TOUCH_SENSORS, active := false }) := by
    rw [hfive, h41, h42, hlast]
    rfl
  refine ⟨?_, ?_, ?_, ?_, ?_⟩
  · intro j hj
    by_cases hj5 : j = 5
    · subst hj5
      rw [h5]
      constructor
      · show NUM_TOUCH_SENSORS = SENSORS_PER_TICK * 5
        decide
      · rfl
    · obtain ⟨t2, h1, h2⟩ := hprog j (by omega)
      rw [h2]
      refine ⟨rfl, ?_⟩
      have hj' : j < 5 := by omega
      simp [Machine.freshSlot, hj']
  · intro j hj
    obtain ⟨t2, h1, h2⟩ := hprog j (by omega)
    rw [h1]
  · rw [h5]
  · exact fun m' t' t'' qc' => tick_touch_calls_le m' t' t'' qc'
  · exact fun m' qc' => tick_cursor_mono m' qc'

/-- Witness for C3 on the concrete all-active machine: after 5 ticks the
RECALIBRATED "ALL" event with id 3 is the sole queued event. -/
theorem recalibrate_all_chunked_five_ticks_witness :
    (iterateTick 5 (machineWithTouch, Machine.freshSlot recalAllCmd3 0)).1.queue =
      machineWithTouch.queue.queueRecalibrated noPosChar (effId recalAllCmd3) :=
  (recalibrate_all_chunked_five_ticks machineWithTouch touchAllActive
    recalAllCmd3 0 rfl rfl rfl).2.2.1

-- ===========================================================================
-- C7: line overflow discards exactly MAX_LINE_LEN bytes, one ERR
-- ===========================================================================

/-- Claim C7: when the assembler finds no terminator and the pending span
has reached `MAX_LINE_LEN`, `extractLine` signals overflow (without
blocking: it still returns), discards exactly `MAX_LINE_LEN` bytes (the
tail advances by `MAX_LINE_LEN` mod the ring size and the pending count
drops by exactly `MAX_LINE_LEN`, buffer and head untouched), and the
processing loop enqueues exactly one ERR `line_too_long` for it. -/
theorem line_overflow_discards_and_reports_once (rx : RxState) (m : Machine)
    (now : Nat) (hh : rx.head < RX_SIZE) (htl : rx.tail < RX_SIZE)
    (hne : rx.head ≠ rx.tail)
    (hscan : scanNewline rx.buf rx.tail (pendingCount rx) = false)
    (hfull : MAX_LINE_LEN ≤ pendingCount rx) :
    extractLine rx =
      { got := true, overflow := true, line := [],
        rx := { rx with tail := (rx.tail + MAX_LINE_LEN) % RX_SIZE } } ∧
    pendingCount { rx with tail := (rx.tail + MAX_LINE_LEN) % RX_SIZE } =
      pendingCount rx - MAX_LINE_LEN ∧
    processOneLine m rx now =
      ({ m with queue := m.queue.queueError "line_too_long" NO_COMMAND_ID },
       { rx with tail := (rx.tail + MAX_LINE_LEN) % RX_SIZE }, true) := by
  have hext : extractLine rx =
      { got := true, overflow := true, line := [],
        rx := { rx with tail := (rx.tail + MAX_LINE_LEN) % RX_SIZE } } := by
    unfold extractLine
    rw [if_neg hne]
    simp only [hscan, Bool.false_eq_true, not_false_iff, if_true]
    rw [if_pos hfull]
  refine ⟨hext, ?_, ?_⟩
  · unfold pendingCount RX_SIZE MAX_LINE_LEN at *
    simp only
    split_ifs at hfull ⊢ <;> omega
  · unfold processOneLine
    rw [hext]
    rfl

/-- A receive buffer holding 64 unterminated bytes. -/
def rxOverflow : RxState :=
  { buf := List.replicate RX_SIZE 'A', head := 64, tail := 0 }

/-- Witness for C7 on a concrete 64-byte unterminated buffer. -/
theorem line_overflow_discards_and_reports_once_witness :
    processOneLine machineNoTouch rxOverflow 0 =
      ({ machineNoTouch with
         queue := machineNoTouch.queue.queueError "line_too_long" NO_COMMAND_ID },
       { rxOverflow with tail := (rxOverflow.tail + MAX_LINE_LEN) % RX_SIZE },
       true) :=
  (line_overflow_discards_and_reports_once rxOverflow machineNoTouch 0
    (by decide) (by decide) (by decide) (by decide) (by decide)).2.2

-- ===========================================================================
-- C8: a failed parse queues exactly one ERR and has no other effect
-- ===========================================================================

/-- Dropping the current token and following whitespace never lengthens
the rest of the line. -/
theorem skipWs_dropToken_len (c : Char) (rest : List Char) :
    (skipWs (dropToken (c :: rest))).length ≤ rest.length := by
  unfold skipWs dropToken
  by_cases hw : isWsChar c
  · have h1 : (c :: rest).dropWhile (fun c => ¬ isWsChar c) = c :: rest := by
      rw [List.dropWhile_cons]
      simp [hw]
    rw [h1, List.dropWhile_cons]
    simp only [hw, if_true]
    exact length_dropWhile_le _ _
  · have h1 : (c :: rest).dropWhile (fun c => ¬ isWsChar c) =
        rest.dropWhile (fun c => ¬ isWsChar c) := by
      rw [List.dropWhile_cons]
      simp [hw]
    rw [h1]
    exact le_trans (length_dropWhile_le _ _) (length_dropWhile_le _ _)

/-- Every failing path of the token loop queues exactly one error event
(onto the untouched queue) and nothing else. -/
theorem parseTokens_fail (fuel : Nat) :
    ∀ (rest : List Char) (q : EventQueue) (cmd : ParsedCommand),
      rest.length < fuel → (parseTokens fuel q cmd rest).2 = none →
      ∃ r i, (parseTokens fuel q cmd rest).1 = q.queueError r i := by
  induction fuel with
  | zero => intro rest q cmd h; omega
  | succ fuel ih =>
    intro rest q cmd hlen hnone
    cases rest with
    | nil =>
      by_cases hbad : actionRequiresPosition cmd.action = true ∧
          cmd.hasPosition = false
      · exact ⟨"bad_format", effId cmd, by simp [parseTokens, hbad]⟩
      · simp [parseTokens, hbad] at hnone
    | cons c rest' =>
      simp only [List.length_cons] at hlen
      by_cases hc : c = '#'
      · by_cases hd : rest'.takeWhile isDigitChar = []
        · exact ⟨"bad_format", NO_COMMAND_ID, by simp [parseTokens, hc, hd]⟩
        · simp only [parseTokens, hc, if_true, hd, if_false, if_neg hd] at hnone ⊢
          have hb : (skipWs (rest'.dropWhile isDigitChar)).length < fuel :=
            lt_of_le_of_lt
              (le_trans (length_dropWhile_le _ _) (length_dropWhile_le _ _))
              (by omega)
          exact ih _ q _ hb hnone
      · by_cases h1 : (takeToken (c :: rest')).length = 1
        · by_cases hidx : charToIndex c = 255
          · refine ⟨"unknown_position", effId cmd, ?_⟩
            simp [parseTokens, hc, h1, hidx]
          · simp only [parseTokens, if_neg hc, h1, if_true, if_pos, hidx,
              ne_eq, not_false_iff, if_neg] at hnone ⊢
            have hb : (skipWs (dropToken (c :: rest'))).length < fuel :=
              lt_of_le_of_lt (skipWs_dropToken_len c rest') (by omega)
            exact ih _ q _ hb hnone
        · by_cases hgt : 1 < (takeToken (c :: rest')).length
          · refine ⟨"bad_format", effId cmd, ?_⟩
            simp [parseTokens, hc, h1, hgt]
          · simp only [parseTokens, if_neg hc, h1, if_false, hgt,
              if_neg] at hnone ⊢
            have hb : (skipWs (dropToken (c :: rest'))).length < fuel :=
              lt_of_le_of_lt (skipWs_dropToken_len c rest') (by omega)
            exact ih _ q _ hb hnone

/-- Every failing path of `parseAfterPrefix` queues exactly one error. -/
theorem parseAfterPrefix_fail (q : EventQueue) (ptr : List Char)
    (hnone : (parseAfterPrefix q ptr).2 = none) :
    ∃ r i, (parseAfterPrefix q ptr).1 = q.queueError r i := by
  unfold parseAfterPrefix at hnone ⊢
  by_cases h0 : (takeToken ptr).length = 0
  · exact ⟨"bad_format", NO_COMMAND_ID, by simp [h0]⟩
  · by_cases hinv : parseAction (takeToken ptr) = CommandAction.INVALID
    · exact ⟨"unknown_action", NO_COMMAND_ID, by simp [h0, hinv]⟩
    · simp only [h0, hinv, if_false, if_neg h0, if_neg hinv] at hnone ⊢
      exact parseTokens_fail (ptr.length + 1) _ q _
        (lt_of_le_of_lt (le_trans (length_dropWhile_le _ _)
          (length_dropWhile_le _ _)) (by omega)) hnone

/-- Claim C8: a failed parse queues exactly one ERR event onto the queue
and produces no command (hence no side effect); the reason is determined
by the first offending token — `SHOW Z` yields `unknown_position`, `FOO A`
yields `unknown_action`, bare `SHOW` yields `bad_format` — and the ERR
carries the already-parsed correlation id (`SHOW #7 Z`) or the no-id
sentinel. -/
theorem parse_failure_single_error :
    (∀ (q : EventQueue) (line : List Char),
      (parseLine q line).2 = none →
      ∃ r i, (parseLine q line).1 = q.queueError r i) ∧
    (∀ q : EventQueue, parseLine q (String.toList "SHOW Z") =
      (q.queueError "unknown_position" NO_COMMAND_ID, none)) ∧
    (∀ q : EventQueue, parseLine q (String.toList "FOO A") =
      (q.queueError "unknown_action" NO_COMMAND_ID, none)) ∧
    (∀ q : EventQueue, parseLine q (String.toList "SHOW") =
      (q.queueError "bad_format" NO_COMMAND_ID, none)) ∧
    (∀ q : EventQueue, parseLine q (String.toList "SHOW #7 Z") =
      (q.queueError "unknown_position" 7, none)) := by
  refine ⟨?_, fun q => rfl, fun q => rfl, fun q => rfl, fun q => rfl⟩
  intro q line hnone
  unfold parseLine at hnone ⊢
  exact parseAfterPrefix_fail q _ hnone

/-- Witness for C8: concrete failing parses through the theorem. -/
theorem parse_failure_single_error_witness :
    (∃ r i, (parseLine emptyQueue (String.toList "FOO")).1 =
      emptyQueue.queueError r i) ∧
    parseLine emptyQueue (String.toList "SHOW Z") =
      (emptyQueue.queueError "unknown_position" NO_COMMAND_ID, none) :=
  ⟨parse_failure_single_error.1 emptyQueue (String.toList "FOO") rfl,
   parse_failure_single_error.2.1 emptyQueue⟩

-- ===========================================================================
-- C2 / C10: one-shot expectations in the touch debouncer
-- ===========================================================================

/-- Exhaustive case split for one debouncer slice: either no event is
emitted and both expectations are untouched, or exactly one report fires —
an armed fulfillment (consuming its expectation) or a spontaneous report
(touching neither expectation). -/
theorem sensorTick_cases (i : Nat) (sys : SensorSys) (now : Nat) (raw : Bool)
    (hinv : sys.s.lastReportedTouched = sys.s.debouncedTouched) :
    (sensorTick i sys now raw).1.s.lastReportedTouched =
      (sensorTick i sys now raw).1.s.debouncedTouched ∧
    (((sensorTick i sys now raw).2 = none ∧
      (sensorTick i sys now raw).1.eD = sys.eD ∧
      (sensorTick i sys now raw).1.eU = sys.eU) ∨
     (sys.eD.active = true ∧
      (sensorTick i sys now raw).2 =
        some (mkTouchedDown (indexToLetter i) sys.eD.commandId) ∧
      (sensorTick i sys now raw).1.eD = noExpect ∧
      (sensorTick i sys now raw).1.eU = sys.eU) ∨
     (sys.eD.active = false ∧
      (sensorTick i sys now raw).2 = some (mkTouchDown (indexToLetter i)) ∧
      (sensorTick i sys now raw).1.eD = sys.eD ∧
      (sensorTick i sys now raw).1.eU = sys.eU) ∨
     (sys.eU.active = true ∧
      (sensorTick i sys now raw).2 =
        some (mkTouchedUp (indexToLetter i) sys.eU.commandId) ∧
      (sensorTick i sys now raw).1.eU = noExpect ∧
      (sensorTick i sys now raw).1.eD = sys.eD) ∨
     (sys.eU.active = false ∧
      (sensorTick i sys now raw).2 = some (mkTouchUp (indexToLetter i)) ∧
      (sensorTick i sys now raw).1.eU = sys.eU ∧
      (sensorTick i sys now raw).1.eD = sys.eD)) := by
  unfold sensorTick debounceSensorEmit
  have hrep : (pollSensor now raw sys.s).lastReportedTouched =
      sys.s.lastReportedTouched := by
    unfold pollSensor
    split_ifs <;> rfl
  have hdeb : (pollSensor now raw sys.s).debouncedTouched =
      sys.s.debouncedTouched := by
    unfold pollSensor
    split_ifs <;> rfl
  dsimp only
  split_ifs with c1 c2 c3 c4 c5 c6 c7
  · exact ⟨hrep.trans (hinv.trans hdeb.symm), Or.inl ⟨rfl, rfl, rfl⟩⟩
  · exact ⟨hrep.trans (hinv.trans hdeb.symm), Or.inl ⟨rfl, rfl, rfl⟩⟩
  · exact ⟨c4.symm, Or.inl ⟨rfl, rfl, rfl⟩⟩
  · exact ⟨rfl, Or.inr (Or.inl ⟨c6, rfl, rfl, rfl⟩)⟩
  · exact ⟨rfl, Or.inr (Or.inr (Or.inl
      ⟨by simpa using c6, rfl, rfl, rfl⟩))⟩
  · exact ⟨rfl, Or.inr (Or.inr (Or.inr (Or.inl ⟨c7, rfl, rfl, rfl⟩)))⟩
  · exact ⟨rfl, Or.inr (Or.inr (Or.inr (Or.inr
      ⟨by simpa using c7, rfl, rfl, rfl⟩)))⟩
  · exact ⟨hrep.trans (hinv.trans hdeb.symm), Or.inl ⟨rfl, rfl, rfl⟩⟩

/-- Classification facts for the report constructors. -/
theorem isDownEvent_mkTouchedDown (l : Char) (n : Nat) :
    isDownEvent (mkTouchedDown l n) = true := rfl

/-- A spontaneous TOUCH_DOWN is a down-direction report. -/
theorem isDownEvent_mkTouchDown (l : Char) :
    isDownEvent (mkTouchDown l) = true := rfl

/-- A TOUCHED_UP fulfillment is not a down-direction report. -/
theorem isDownEvent_mkTouchedUp (l : Char) (n : Nat) :
    isDownEvent (mkTouchedUp l n) = false := rfl

/-- A spontaneous TOUCH_UP is not a down-direction report. -/
theorem isDownEvent_mkTouchUp (l : Char) :
    isDownEvent (mkTouchUp l) = false := rfl

/-- A TOUCHED_UP fulfillment is an up-direction report. -/
theorem isUpEvent_mkTouchedUp (l : Char) (n : Nat) :
    isUpEvent (mkTouchedUp l n) = true := rfl

/-- A spontaneous TOUCH_UP is an up-direction report. -/
theorem isUpEvent_mkTouchUp (l : Char) :
    isUpEvent (mkTouchUp l) = true := rfl

/-- A TOUCHED_DOWN fulfillment is not an up-direction report. -/
theorem isUpEvent_mkTouchedDown (l : Char) (n : Nat) :
    isUpEvent (mkTouchedDown l n) = false := rfl

/-- A spontaneous TOUCH_DOWN is not an up-direction report. -/
theorem isUpEvent_mkTouchDown (l : Char) :
    isUpEvent (mkTouchDown l) = false := rfl

/-- Trace-level one-shot behaviour of the debouncer, both directions: over
any input trace (with no re-arming), an armed expectation either stays
armed with no report in its direction, or the first report in its
direction is the single fulfillment event carrying the armed id, every
later one is spontaneous, and the expectation ends consumed; an unarmed
expectation stays unarmed and only spontaneous reports fire. -/
theorem runSensor_spec (inputs : List (Nat × Bool)) :
    ∀ (i : Nat) (sys : SensorSys),
      sys.s.lastReportedTouched = sys.s.debouncedTouched →
      ((runSensor i sys inputs).1.s.lastReportedTouched =
        (runSensor i sys inputs).1.s.debouncedTouched) ∧
      (sys.eD.active = true →
        (((runSensor i sys inputs).2.filter isDownEvent = [] ∧
          (runSensor i sys inputs).1.eD = sys.eD) ∨
         (∃ rest,
           (runSensor i sys inputs).2.filter isDownEvent =
             mkTouchedDown (indexToLetter i) sys.eD.commandId :: rest ∧
           (∀ e ∈ rest, e = mkTouchDown (indexToLetter i)) ∧
           (runSensor i sys inputs).1.eD = noExpect))) ∧
      (sys.eD.active = false →
        ((∀ e ∈ (runSensor i sys inputs).2.filter isDownEvent,
            e = mkTouchDown (indexToLetter i)) ∧
         (runSensor i sys inputs).1.eD = sys.eD)) ∧
      (sys.eU.active = true →
        (((runSensor i sys inputs).2.filter isUpEvent = [] ∧
          (runSensor i sys inputs).1.eU = sys.eU) ∨
         (∃ rest,
           (runSensor i sys inputs).2.filter isUpEvent =
             mkTouchedUp (indexToLetter i) sys.eU.commandId :: rest ∧
           (∀ e ∈ rest, e = mkTouchUp (indexToLetter i)) ∧
           (runSensor i sys inputs).1.eU = noExpect))) ∧
      (sys.eU.active = false →
        ((∀ e ∈ (runSensor i sys inputs).2.filter isUpEvent,
            e = mkTouchUp (indexToLetter i)) ∧
         (runSensor i sys inputs).1.eU = sys.eU)) := by
  induction inputs with
  | nil =>
    intro i sys h
    refine ⟨h, ?_, ?_, ?_, ?_⟩
    · intro _; exact Or.inl ⟨rfl, rfl⟩
    · intro _; exact ⟨by simp [runSensor], rfl⟩
    · intro _; exact Or.inl ⟨rfl, rfl⟩
    · intro _; exact ⟨by simp [runSensor], rfl⟩
  | cons p rest ih =>
    intro i sys h
    rcases p with ⟨now, raw⟩
    rcases hstep : sensorTick i sys now raw with ⟨sys1, emit⟩
    rcases hr2 : runSensor i sys1 rest with ⟨sysN, evs⟩
    have hrun : runSensor i sys ((now, raw) :: rest) =
        (sysN, emit.toList ++ evs) := by
      simp only [runSensor, hstep, hr2]
    have hcases := sensorTick_cases i sys now raw h
    rw [hstep] at hcases
    obtain ⟨hinv1, hdisj⟩ := hcases
    dsimp only at hinv1 hdisj
    have IH := ih i sys1 hinv1
    rw [hr2] at IH
    obtain ⟨IHinv, IHdt, IHdf, IHut, IHuf⟩ := IH
    dsimp only at IHinv IHdt IHdf IHut IHuf
    rw [hrun]
    refine ⟨IHinv, ?_, ?_, ?_, ?_⟩
    -- down direction, armed
    · intro hDa
      rcases hdisj with ⟨he, heD, heU⟩ | ⟨hA, he, heD, heU⟩ |
        ⟨hA, he, heD, heU⟩ | ⟨hA, he, heU, heD⟩ | ⟨hA, he, heU, heD⟩
      · simp only [he, Option.toList_none, List.nil_append]
        rcases IHdt (by rw [heD]; exact hDa) with ⟨h1, h2⟩ | ⟨r, h1, h2, h3⟩
        · exact Or.inl ⟨h1, by rw [h2, heD]⟩
        · exact Or.inr ⟨r, by rw [h1, heD], h2, h3⟩
      · simp only [he, Option.toList_some, List.singleton_append,
          List.filter_cons, isDownEvent_mkTouchedDown, if_true]
        rcases IHdf (by rw [heD]; rfl) with ⟨h1, h2⟩
        refine Or.inr ⟨evs.filter isDownEvent, by simp, h1, by rw [h2, heD]⟩
      · rw [hA] at hDa; cases hDa
      · simp only [he, Option.toList_some, List.singleton_append,
          List.filter_cons, isDownEvent_mkTouchedUp, Bool.false_eq_true,
          if_false]
        rcases IHdt (by rw [heD]; exact hDa) with ⟨h1, h2⟩ | ⟨r, h1, h2, h3⟩
        · exact Or.inl ⟨h1, by rw [h2, heD]⟩
        · exact Or.inr ⟨r, by rw [h1, heD], h2, h3⟩
      · simp only [he, Option.toList_some, List.singleton_append,
          List.filter_cons, isDownEvent_mkTouchUp, Bool.false_eq_true,
          if_false]
        rcases IHdt (by rw [heD]; exact hDa) with ⟨h1, h2⟩ | ⟨r, h1, h2, h3⟩
        · exact Or.inl ⟨h1, by rw [h2, heD]⟩
        · exact Or.inr ⟨r, by rw [h1, heD], h2, h3⟩
    -- down direction, unarmed
    · intro hDa
      rcases hdisj with ⟨he, heD, heU⟩ | ⟨hA, he, heD, heU⟩ |
        ⟨hA, he, heD, heU⟩ | ⟨hA, he, heU, heD⟩ | ⟨hA, he, heU, heD⟩
      · simp only [he, Option.toList_none, List.nil_append]
        rcases IHdf (by rw [heD]; exact hDa) with ⟨h1, h2⟩
        exact ⟨h1, by rw [h2, heD]⟩
      · rw [hA] at hDa; cases hDa
      · simp only [he, Option.toList_some, List.singleton_append,
          List.filter_cons, isDownEvent_mkTouchDown, if_true]
        rcases IHdf (by rw [heD]; exact hDa) with ⟨h1, h2⟩
        refine ⟨?_, by rw [h2, heD]⟩
        intro e he'
        rcases List.mem_cons.mp he' with h | h
        · exact h
        · exact h1 e h
      · simp only [he, Option.toList_some, List.singleton_append,
          List.filter_cons, isDownEvent_mkTouchedUp, Bool.false_eq_true,
          if_false]
        rcases IHdf (by rw [heD]; exact hDa) with ⟨h1, h2⟩
        exact ⟨h1, by rw [h2, heD]⟩
      · simp only [he, Option.toList_some, List.singleton_append,
          List.filter_cons, isDownEvent_mkTouchUp, Bool.false_eq_true,
          if_false]
        rcases IHdf (by rw [heD]; exact hDa) with ⟨h1, h2⟩
        exact ⟨h1, by rw [h2, heD]⟩
    -- up direction, armed
    · intro hUa
      rcases hdisj with ⟨he, heD, heU⟩ | ⟨hA, he, heD, heU⟩ |
        ⟨hA, he, heD, heU⟩ | ⟨hA, he, heU, heD⟩ | ⟨hA, he, heU, heD⟩
      · simp only [he, Option.toList_none, List.nil_append]
        rcases IHut (by rw [heU]; exact hUa) with ⟨h1, h2⟩ | ⟨r, h1, h2, h3⟩
        · exact Or.inl ⟨h1, by rw [h2, heU]⟩
        · exact Or.inr ⟨r, by rw [h1, heU], h2, h3⟩
      · simp only [he, Option.toList_some, List.singleton_append,
          List.filter_cons, isUpEvent_mkTouchedDown, Bool.false_eq_true,
          if_false]
        rcases IHut (by rw [heU]; exact hUa) with ⟨h1, h2⟩ | ⟨r, h1, h2, h3⟩
        · exact Or.inl ⟨h1, by rw [h2, heU]⟩
        · exact Or.inr ⟨r, by rw [h1, heU], h2, h3⟩
      · simp only [he, Option.toList_some, List.singleton_append,
          List.filter_cons, isUpEvent_mkTouchDown, Bool.false_eq_true,
          if_false]
        rcases IHut (by rw [heU]; exact hUa) with ⟨h1, h2⟩ | ⟨r, h1, h2, h3⟩
        · exact Or.inl ⟨h1, by rw [h2, heU]⟩
        · exact Or.inr ⟨r, by rw [h1, heU], h2, h3⟩
      · simp only [he, Option.toList_some, List.singleton_append,
          List.filter_cons, isUpEvent_mkTouchedUp, if_true]
        rcases IHuf (by rw [heU]; rfl) with ⟨h1, h2⟩
        refine Or.inr ⟨evs.filter isUpEvent, by simp, h1, by rw [h2, heU]⟩
      · rw [hA] at hUa; cases hUa
    -- up direction, unarmed
    · intro hUa
      rcases hdisj with ⟨he, heD, heU⟩ | ⟨hA, he, heD, heU⟩ |
        ⟨hA, he, heD, heU⟩ | ⟨hA, he, heU, heD⟩ | ⟨hA, he, heU, heD⟩
      · simp only [he, Option.toList_none, List.nil_append]
        rcases IHuf (by rw [heU]; exact hUa) with ⟨h1, h2⟩
        exact ⟨h1, by rw [h2, heU]⟩
      · simp only [he, Option.toList_some, List.singleton_append,
          List.filter_cons, isUpEvent_mkTouchedDown, Bool.false_eq_true,
          if_false]
        rcases IHuf (by rw [heU]; exact hUa) with ⟨h1, h2⟩
        exact ⟨h1, by rw [h2, heU]⟩
      · simp only [he, Option.toList_some, List.singleton_append,
          List.filter_cons, isUpEvent_mkTouchDown, Bool.false_eq_true,
          if_false]
        rcases IHuf (by rw [heU]; exact hUa) with ⟨h1, h2⟩
        exact ⟨h1, by rw [h2, heU]⟩
      · rw [hA] at hUa; cases hUa
      · simp only [he, Option.toList_some, List.singleton_append,
          List.filter_cons, isUpEvent_mkTouchUp, if_true]
        rcases IHuf (by rw [heU]; exact hUa) with ⟨h1, h2⟩
        refine ⟨?_, by rw [h2, heU]⟩
        intro e he'
        rcases List.mem_cons.mp he' with h | h
        · exact h
        · exact h1 e h

/-- Claim C2: for a sensor with both expectations armed (ids `idD`, `idU`)
and a consistent debouncer state, over any input trace with no re-arming:
in each direction either no report fires, or the first report is exactly
one fulfillment event (TOUCHED_DOWN resp. TOUCHED_UP) carrying the armed
correlation id, the expectation is disarmed from then on, and every
subsequent report in that direction is the spontaneous TOUCH_DOWN
(resp. TOUCH_UP) without an id. -/
theorem expectation_one_shot_consumption (i : Nat) (sys : SensorSys)
    (idD idU : Nat) (inputs : List (Nat × Bool))
    (hinv : sys.s.lastReportedTouched = sys.s.debouncedTouched)
    (hD : sys.eD = { active := true, commandId := idD })
    (hU : sys.eU = { active := true, commandId := idU }) :
    ((runSensor i sys inputs).2.filter isDownEvent = [] ∨
     ∃ rest, (runSensor i sys inputs).2.filter isDownEvent =
         mkTouchedDown (indexToLetter i) idD :: rest ∧
       (∀ e ∈ rest, e = mkTouchDown (indexToLetter i)) ∧
       (runSensor i sys inputs).1.eD = noExpect) ∧
    ((runSensor i sys inputs).2.filter isUpEvent = [] ∨
     ∃ rest, (runSensor i sys inputs).2.filter isUpEvent =
         mkTouchedUp (indexToLetter i) idU :: rest ∧
       (∀ e ∈ rest, e = mkTouchUp (indexToLetter i)) ∧
       (runSensor i sys inputs).1.eU = noExpect) := by
  obtain ⟨_, hdt, _, hut, _⟩ := runSensor_spec inputs i sys hinv
  constructor
  · rcases hdt (by rw [hD]) with ⟨h1, _⟩ | ⟨r, h1, h2, h3⟩
    · exact Or.inl h1
    · refine Or.inr ⟨r, ?_, h2, h3⟩
      rw [hD] at h1
      simpa using h1
  · rcases hut (by rw [hU]) with ⟨h1, _⟩ | ⟨r, h1, h2, h3⟩
    · exact Or.inl h1
    · refine Or.inr ⟨r, ?_, h2, h3⟩
      rw [hU] at h1
      simpa using h1

/-- A sensor slice with both expectations armed and a touch in progress. -/
def armedSensorSys : SensorSys :=
  { s := { active := true, currentTouched := true, debouncedTouched := false,
           lastReportedTouched := false, lastChangeTime := 0 },
    eD := { active := true, commandId := 9 },
    eU := { active := true, commandId := 11 } }

/-- Witness for C2 on a concrete press/release/press trace. -/
theorem expectation_one_shot_consumption_witness :
    (((runSensor 0 armedSensorSys
        [(40, true), (50, false), (90, false), (130, true), (170, true)]).2.filter
          isDownEvent = [] ∨
      ∃ rest, (runSensor 0 armedSensorSys
        [(40, true), (50, false), (90, false), (130, true), (170, true)]).2.filter
          isDownEvent = mkTouchedDown (indexToLetter 0) 9 :: rest ∧
        (∀ e ∈ rest, e = mkTouchDown (indexToLetter 0)) ∧
        (runSensor 0 armedSensorSys
          [(40, true), (50, false), (90, false), (130, true), (170, true)]).1.eD =
          noExpect) ∧
     ((runSensor 0 armedSensorSys
        [(40, true), (50, false), (90, false), (130, true), (170, true)]).2.filter
          isUpEvent = [] ∨
      ∃ rest, (runSensor 0 armedSensorSys
        [(40, true), (50, false), (90, false), (130, true), (170, true)]).2.filter
          isUpEvent = mkTouchedUp (indexToLetter 0) 11 :: rest ∧
        (∀ e ∈ rest, e = mkTouchUp (indexToLetter 0)) ∧
        (runSensor 0 armedSensorSys
          [(40, true), (50, false), (90, false), (130, true), (170, true)]).1.eU =
          noExpect)) :=
  expectation_one_shot_consumption 0 armedSensorSys 9 11
    [(40, true), (50, false), (90, false), (130, true), (170, true)]
    rfl rfl rfl

/-- At a debounced press transition (sensor active, debounce window
elapsed, raw touched but debounced and last-reported untouched) the loop
body emits exactly one event — `TOUCHED_DOWN id` with the down
expectation's stored id when armed, else a spontaneous `TOUCH_DOWN` —
and disarms the down expectation when it was armed. -/
theorem debounceEmit_rising (n j : Nat) (st : TouchSensorState)
    (e1 e2 : Expectation) (ha : st.active = true)
    (he : ¬ elapsed32 n st.lastChangeTime < DEBOUNCE_MS)
    (hc : st.currentTouched = true) (hd : st.debouncedTouched = false)
    (hr : st.lastReportedTouched = false) :
    debounceSensorEmit n j st e1 e2 =
      ({ st with debouncedTouched := true, lastReportedTouched := true },
       (if e1.active then noExpect else e1), e2,
       some (if e1.active then mkTouchedDown (indexToLetter j) e1.commandId
             else mkTouchDown (indexToLetter j))) := by
  unfold debounceSensorEmit
  rw [if_neg (by simp [ha]), if_neg he, if_neg (by simp [hc, hd])]
  dsimp only
  rw [if_neg (by simp [hc, hr]), if_pos (by simp [hc])]
  by_cases h1 : e1.active = true
  · rw [if_pos h1]
    simp [h1, hc]
  · rw [if_neg h1]
    simp [h1, hc]

/-- At a debounced release transition (sensor active, debounce window
elapsed, raw untouched but debounced and last-reported touched) the loop
body emits exactly one event — `TOUCHED_UP id` with the up expectation's
stored id when armed, else a spontaneous `TOUCH_UP` — and disarms the up
expectation when it was armed. -/
theorem debounceEmit_falling (n j : Nat) (st : TouchSensorState)
    (e1 e2 : Expectation) (ha : st.active = true)
    (he : ¬ elapsed32 n st.lastChangeTime < DEBOUNCE_MS)
    (hc : st.currentTouched = false) (hd : st.debouncedTouched = true)
    (hr : st.lastReportedTouched = true) :
    debounceSensorEmit n j st e1 e2 =
      ({ st with debouncedTouched := false, lastReportedTouched := false },
       e1, (if e2.active then noExpect else e2),
       some (if e2.active then mkTouchedUp (indexToLetter j) e2.commandId
             else mkTouchUp (indexToLetter j))) := by
  unfold debounceSensorEmit
  rw [if_neg (by simp [ha]), if_neg he, if_neg (by simp [hc, hd])]
  dsimp only
  rw [if_neg (by simp [hc, hr]), if_neg (by simp [hc])]
  by_cases h2 : e2.active = true
  · rw [if_pos h2]
    simp [h2, hc]
  · rw [if_neg h2]
    simp [h2, hc]

/-- Claim C10: at the debounced transition that fulfills an armed
expectation — in both directions — the fulfillment event is handed to the
queue with its result ignored, and the expectation is disarmed
unconditionally.  With the event queue full the TOUCHED_DOWN
(respectively TOUCHED_UP) is silently dropped (queue unchanged), the
expectation is not re-armed, and any later debounced press (respectively
release) on that sensor is reported as a spontaneous TOUCH_DOWN
(respectively TOUCH_UP). -/
theorem expectation_disarmed_even_when_queue_full :
    (∀ (now i : Nat) (s : TouchSensorState) (eD eU : Expectation)
       (q : EventQueue),
      s.active = true → ¬ elapsed32 now s.lastChangeTime < DEBOUNCE_MS →
      s.currentTouched = true → s.debouncedTouched = false →
      s.lastReportedTouched = false → eD.active = true →
      (debounceSensorEmit now i s eD eU).2.2.2 =
        some (mkTouchedDown (indexToLetter i) eD.commandId) ∧
      (debounceSensorEmit now i s eD eU).2.1 = noExpect ∧
      (EVENT_QUEUE_SIZE ≤ q.events.length →
        (processDebounceSensor now i s eD eU q).2.2.2 = q ∧
        (processDebounceSensor now i s eD eU q).2.1 = noExpect)) ∧
    (∀ (now i : Nat) (s : TouchSensorState) (eD eU : Expectation)
       (q : EventQueue),
      s.active = true → ¬ elapsed32 now s.lastChangeTime < DEBOUNCE_MS →
      s.currentTouched = false → s.debouncedTouched = true →
      s.lastReportedTouched = true → eU.active = true →
      (debounceSensorEmit now i s eD eU).2.2.2 =
        some (mkTouchedUp (indexToLetter i) eU.commandId) ∧
      (debounceSensorEmit now i s eD eU).2.2.1 = noExpect ∧
      (EVENT_QUEUE_SIZE ≤ q.events.length →
        (processDebounceSensor now i s eD eU q).2.2.2 = q ∧
        (processDebounceSensor now i s eD eU q).2.2.1 = noExpect)) ∧
    (∀ (now i : Nat) (s : TouchSensorState) (eU : Expectation),
      s.active = true → ¬ elapsed32 now s.lastChangeTime < DEBOUNCE_MS →
      s.currentTouched = true → s.debouncedTouched = false →
      s.lastReportedTouched = false →
      (debounceSensorEmit now i s noExpect eU).2.2.2 =
        some (mkTouchDown (indexToLetter i))) ∧
    (∀ (now i : Nat) (s : TouchSensorState) (eD : Expectation),
      s.active = true → ¬ elapsed32 now s.lastChangeTime < DEBOUNCE_MS →
      s.currentTouched = false → s.debouncedTouched = true →
      s.lastReportedTouched = true →
      (debounceSensorEmit now i s eD noExpect).2.2.2 =
        some (mkTouchUp (indexToLetter i))) := by
  refine ⟨?_, ?_, ?_, ?_⟩
  · intro now i s eD eU q hact helapsed hcur hdeb hrep harm
    have h1 := debounceEmit_rising now i s eD eU hact helapsed hcur hdeb hrep
    refine ⟨by rw [h1]; simp [harm], by rw [h1]; simp [harm], ?_⟩
    intro hfull
    unfold processDebounceSensor
    rw [h1]
    dsimp only
    rw [if_pos harm, if_pos harm]
    constructor
    · unfold applyEmit EventQueue.enqueue1 EventQueue.enqueue
      dsimp only
      rw [if_pos (show q.isFull = true by simp [EventQueue.isFull, hfull])]
    · rfl
  · intro now i s eD eU q hact helapsed hcur hdeb hrep harm
    have h1 := debounceEmit_falling now i s eD eU hact helapsed hcur hdeb hrep
    refine ⟨by rw [h1]; simp [harm], by rw [h1]; simp [harm], ?_⟩
    intro hfull
    unfold processDebounceSensor
    rw [h1]
    dsimp only
    rw [if_pos harm, if_pos harm]
    constructor
    · unfold applyEmit EventQueue.enqueue1 EventQueue.enqueue
      dsimp only
      rw [if_pos (show q.isFull = true by simp [EventQueue.isFull, hfull])]
    · rfl
  · intro now i s eU ha he hc hd hr
    have h2 := debounceEmit_rising now i s noExpect eU ha he hc hd hr
    rw [h2]
    simp [noExpect]
  · intro now i s eD ha he hc hd hr
    have h2 := debounceEmit_falling now i s eD noExpect ha he hc hd hr
    rw [h2]
    simp [noExpect]

/-- A full event queue (16 events). -/
def fullQueue : EventQueue :=
  { events := List.replicate EVENT_QUEUE_SIZE (mkTouchDown 'A') }

/-- A sensor slice mid-release (debounced and reported touched, raw
untouched) with both expectations armed. -/
def releasedSensorSys : SensorSys :=
  { s := { active := true, currentTouched := false, debouncedTouched := true,
           lastReportedTouched := true, lastChangeTime := 0 },
    eD := { active := true, commandId := 9 },
    eU := { active := true, commandId := 11 } }

/-- Witness for C10 on a concrete armed press and a concrete armed
release, each against a full queue. -/
theorem expectation_disarmed_even_when_queue_full_witness :
    ((processDebounceSensor 40 0 armedSensorSys.s armedSensorSys.eD
        armedSensorSys.eU fullQueue).2.2.2 = fullQueue ∧
      (processDebounceSensor 40 0 armedSensorSys.s armedSensorSys.eD
        armedSensorSys.eU fullQueue).2.1 = noExpect) ∧
    ((processDebounceSensor 40 0 releasedSensorSys.s releasedSensorSys.eD
        releasedSensorSys.eU fullQueue).2.2.2 = fullQueue ∧
      (processDebounceSensor 40 0 releasedSensorSys.s releasedSensorSys.eD
        releasedSensorSys.eU fullQueue).2.2.1 = noExpect) :=
  ⟨(expectation_disarmed_even_when_queue_full.1 40 0 armedSensorSys.s
      armedSensorSys.eD armedSensorSys.eU fullQueue rfl (by decide) rfl rfl
      rfl rfl).2.2 (by decide),
   (expectation_disarmed_even_when_queue_full.2.1 40 0 releasedSensorSys.s
      releasedSensorSys.eD releasedSensorSys.eU fullQueue rfl (by decide) rfl
      rfl rfl rfl).2.2 (by decide)⟩

-- ===========================================================================
-- C4: SUCCESS — immediate ACK, center lit, DONE after exactly radius steps
-- ===========================================================================

/-- `setLed` never changes the position state array. -/
theorem setLed_positions (led : LedState) (strip : StripId) (index : Int)
    (rgb : Nat × Nat × Nat) : (setLed led strip index rgb).positions =
      led.positions := by
  unfold setLed
  split_ifs <;> rfl

/-- The ghost-pixel clearing sweep never changes the position state array. -/
theorem clearExpandedRegion_positions (mp : LedMapping) :
    ∀ (l : List Nat) (acc : LedState),
      (l.foldl (fun (acc : LedState) (k : Nat) =>
        let idx : Int := mp.index + (k : Int) - (SUCCESS_EXPANSION_RADIUS : Int)
        if 0 ≤ idx ∧ idx < (NUM_LEDS_STRIP : Int) then
          setLed acc mp.strip idx COLOR_OFF
        else acc) acc).positions = acc.positions := by
  intro l
  induction l with
  | nil => intro acc; rfl
  | cons x xs ih =>
    intro acc
    simp only [List.foldl_cons]
    rw [ih]
    split_ifs <;> simp [setLed_positions]

/-- Every entry of the LED mapping table has an in-range strip index. -/
theorem LED_MAPPINGS_index_range :
    ∀ mp ∈ LED_MAPPINGS, 0 ≤ mp.index ∧ mp.index < (NUM_LEDS_STRIP : Int) := by
  decide

/-- What `success()` does: restart the expansion at step 0 (ANIMATING at
time `now`), with the final pixel write being the center LED in the
SUCCESS color, and report success. -/
theorem ledSuccess_spec (led : LedState) (pos now : Nat)
    (hpos : pos < NUM_POSITIONS)
    (hlen : led.positions.length = NUM_POSITIONS) :
    ∃ mapping, getMapping pos = some mapping ∧
      (ledSuccess led pos now).1.writes.getLast? =
        some { strip := mapping.strip, index := mapping.index,
               r := 0, g := 255, b := 0 } ∧
      getPos (ledSuccess led pos now).1 pos =
        { state := PositionState.ANIMATING, animationStep := 0,
          lastAnimationTime := now,
          blinkOn := (getPos led pos).blinkOn } ∧
      (ledSuccess led pos now).2 = true := by
  have hm : ∃ mapping, getMapping pos = some mapping := by
    unfold getMapping
    have : pos < LED_MAPPINGS.length := by
      have : LED_MAPPINGS.length = NUM_POSITIONS := by decide
      omega
    rcases List.get?_eq_get this with h
    exact ⟨_, h⟩
  obtain ⟨mapping, hmap⟩ := hm
  have hrange := LED_MAPPINGS_index_range mapping (List.get?_mem hmap)
  refine ⟨mapping, hmap, ?_⟩
  unfold ledSuccess
  rw [if_neg (by omega), hmap]
  dsimp only
  set led1 := (if (getPos led pos).state = PositionState.ANIMATING ∨
      (getPos led pos).state = PositionState.EXPANDED then
      clearExpandedRegion led mapping
    else if (getPos led pos).state = PositionState.SHOWN then
      setLed led mapping.strip mapping.index COLOR_OFF
    else led) with hled1
  have hpositions : led1.positions = led.positions := by
    rw [hled1]
    split_ifs with h1 h2
    · unfold clearExpandedRegion
      exact clearExpandedRegion_positions mapping _ led
    · exact setLed_positions led _ _ _
    · rfl
  have hsetled : ∀ (st : LedState),
      (setLed st mapping.strip mapping.index COLOR_SUCCESS).writes =
        st.writes ++ [{ strip := mapping.strip, index := mapping.index,
                        r := 0, g := 255, b := 0 }] ∧
      (setLed st mapping.strip mapping.index COLOR_SUCCESS).positions =
        st.positions := by
    intro st
    unfold setLed
    rw [if_neg (by omega), if_pos (by omega)]
    exact ⟨rfl, rfl⟩
  refine ⟨?_, ?_, rfl⟩
  · rw [(hsetled _).1]
    exact List.getLast?_concat _
  · unfold getPos
    rw [(hsetled _).2]
    unfold setPos
    dsimp only
    rw [List.getD_eq_getElem?_getD, List.getElem?_set_self
      (by rw [hpositions]; omega)]
    rfl

/-- A position that is not ANIMATING is never advanced by `update`. -/
theorem runAnim_stopped (ts : List Nat) :
    ∀ p : PositionData, p.state ≠ PositionState.ANIMATING →
      runAnim p ts = p := by
  induction ts with
  | nil => intro p _; rfl
  | cons t ts ih =>
    intro p h
    show runAnim (stepAnimPos p t) ts = p
    rw [show stepAnimPos p t = p by unfold stepAnimPos; rw [if_neg h]]
    exact ih p h

/-- Gated advancement of the expansion: starting mid-animation, the step
counter after a sequence of `update` calls equals the number of gated
80 ms advances (capped at the radius), and the position has reached
EXPANDED exactly when the counter has advanced `SUCCESS_EXPANSION_RADIUS`
times. -/
theorem runAnim_spec (ts : List Nat) :
    ∀ p : PositionData, p.state = PositionState.ANIMATING →
      p.animationStep < SUCCESS_EXPANSION_RADIUS →
      (runAnim p ts).state =
        (if SUCCESS_EXPANSION_RADIUS ≤
            p.animationStep + gatedAdvances p.lastAnimationTime ts then
          PositionState.EXPANDED
        else PositionState.ANIMATING) ∧
      (runAnim p ts).animationStep =
        min (p.animationStep + gatedAdvances p.lastAnimationTime ts)
          SUCCESS_EXPANSION_RADIUS := by
  induction ts with
  | nil =>
    intro p hA hlt
    unfold runAnim gatedAdvances
    rw [if_neg (by omega)]
    exact ⟨hA, by omega⟩
  | cons t ts ih =>
    intro p hA hlt
    by_cases hg : elapsed32 t p.lastAnimationTime < ANIMATION_STEP_MS
    · have hstep : stepAnimPos p t = p := by
        unfold stepAnimPos updateAnimationPos
        rw [if_pos hA, if_pos hg]
      have hgA : gatedAdvances p.lastAnimationTime (t :: ts) =
          gatedAdvances p.lastAnimationTime ts := by
        show (if elapsed32 t p.lastAnimationTime < ANIMATION_STEP_MS then
          gatedAdvances p.lastAnimationTime ts else gatedAdvances t ts + 1) =
          gatedAdvances p.lastAnimationTime ts
        rw [if_pos hg]
      show (runAnim (stepAnimPos p t) ts).state = _ ∧
        (runAnim (stepAnimPos p t) ts).animationStep = _
      rw [hstep, hgA]
      exact ih p hA hlt
    · have hgA : gatedAdvances p.lastAnimationTime (t :: ts) =
          gatedAdvances t ts + 1 := by
        show (if elapsed32 t p.lastAnimationTime < ANIMATION_STEP_MS then
          gatedAdvances p.lastAnimationTime ts else gatedAdvances t ts + 1) =
          gatedAdvances t ts + 1
        rw [if_neg hg]
      by_cases hdone : SUCCESS_EXPANSION_RADIUS ≤ p.animationStep + 1
      · have hstep : stepAnimPos p t =
            { state := PositionState.EXPANDED,
              animationStep := SUCCESS_EXPANSION_RADIUS,
              lastAnimationTime := t, blinkOn := p.blinkOn } := by
          unfold stepAnimPos updateAnimationPos
          rw [if_pos hA, if_neg hg, if_pos hdone]
        show (runAnim (stepAnimPos p t) ts).state = _ ∧
          (runAnim (stepAnimPos p t) ts).animationStep = _
        rw [hstep, runAnim_stopped ts _ (by simp), hgA]
        constructor
        · rw [if_pos (by omega)]
        · dsimp only
          omega
      · have hstep : stepAnimPos p t =
            { p with animationStep := p.animationStep + 1,
                     lastAnimationTime := t } := by
          unfold stepAnimPos updateAnimationPos
          rw [if_pos hA, if_neg hg, if_neg hdone]
        show (runAnim (stepAnimPos p t) ts).state = _ ∧
          (runAnim (stepAnimPos p t) ts).animationStep = _
        rw [hstep, hgA]
        have := ih { p with animationStep := p.animationStep + 1,
                            lastAnimationTime := t } hA (by dsimp only; omega)
        dsimp only at this
        rw [show p.animationStep + (gatedAdvances t ts + 1) =
          p.animationStep + 1 + gatedAdvances t ts from by omega]
        exact this

/-- Admission of a SUCCESS command into the first free slot: the animation
is started and the ACK queued immediately. -/
theorem queueCommand_success (m : Machine) (cmd : ParsedCommand) (now i : Nat)
    (hidx : m.slots.findIdx? (fun s => !s.active) = some i)
    (hact : cmd.action = CommandAction.SUCCESS) :
    m.queueCommand cmd now =
      ({ m with led := (ledSuccess m.led cmd.positionIndex now).1,
                queue := m.queue.queueAck "SUCCESS" cmd.position (effId cmd),
                slots := m.slots.set i (Machine.freshSlot cmd now) }, true) := by
  unfold Machine.queueCommand
  rw [hidx, hact]
  rcases hls : ledSuccess m.led cmd.positionIndex now with ⟨led1, ok1⟩
  dsimp only
  rw [hls]
  rfl

/-- Dispatch of a SUCCESS command with a free slot: same, through
`executeCommand`. -/
theorem executeCommand_success (m : Machine) (cmd : ParsedCommand)
    (now i : Nat) (hidx : m.slots.findIdx? (fun s => !s.active) = some i)
    (hact : cmd.action = CommandAction.SUCCESS) :
    m.executeCommand cmd now =
      { m with led := (ledSuccess m.led cmd.positionIndex now).1,
               queue := m.queue.queueAck "SUCCESS" cmd.position (effId cmd),
               slots := m.slots.set i (Machine.freshSlot cmd now) } := by
  unfold Machine.executeCommand
  rw [show actionIsLongRunning cmd.action = true from by rw [hact]; rfl]
  rw [queueCommand_success m cmd now i hidx hact]
  rfl

/-- Claim C4: dispatching `SUCCESS <pos> #id` with a free slot enqueues the
ACK (action name, position letter, id) immediately on admission and lights
the center pixel at step 0 of a restarted expansion; the step counter then
advances only when the 80 ms interval has elapsed, the position reaches
EXPANDED exactly when it has advanced `SUCCESS_EXPANSION_RADIUS = 5`
times, and `tickCommand` enqueues `DONE SUCCESS <pos> #id` exactly when
(and never before) the position has stopped ANIMATING. -/
theorem success_command_ack_and_done_after_radius_steps (m : Machine)
    (cmd : ParsedCommand) (now : Nat) (ts : List Nat)
    (hact : cmd.action = CommandAction.SUCCESS)
    (hpos : cmd.positionIndex < NUM_POSITIONS)
    (hlen : m.led.positions.length = NUM_POSITIONS)
    (hfree : ∃ qc ∈ m.slots, qc.active = false) :
    ((m.executeCommand cmd now).queue =
      m.queue.queueAck "SUCCESS" cmd.position (effId cmd)) ∧
    (∃ mapping, getMapping cmd.positionIndex = some mapping ∧
      (m.executeCommand cmd now).led.writes.getLast? =
        some { strip := mapping.strip, index := mapping.index,
               r := 0, g := 255, b := 0 }) ∧
    (getPos (m.executeCommand cmd now).led cmd.positionIndex =
      { state := PositionState.ANIMATING, animationStep := 0,
        lastAnimationTime := now,
        blinkOn := (getPos m.led cmd.positionIndex).blinkOn }) ∧
    (∀ p : PositionData, p.state = PositionState.ANIMATING →
      p.animationStep = 0 →
      (runAnim p ts).state =
        (if SUCCESS_EXPANSION_RADIUS ≤ gatedAdvances p.lastAnimationTime ts
         then PositionState.EXPANDED else PositionState.ANIMATING) ∧
      (runAnim p ts).animationStep =
        min (gatedAdvances p.lastAnimationTime ts)
          SUCCESS_EXPANSION_RADIUS) ∧
    (∀ (m' : Machine) (qc : QueuedCommand), qc.active = true →
      qc.command.action = CommandAction.SUCCESS →
      (isAnimationComplete m'.led qc.command.positionIndex = false →
        m'.tickCommand qc = (m', qc)) ∧
      (isAnimationComplete m'.led qc.command.positionIndex = true →
        m'.tickCommand qc =
          ({ m' with queue := m'.queue.queueDone "SUCCESS" qc.command.position (effId qc.command) },
           { qc with active := false }))) ∧
    (∀ (led : LedState) (j : Nat), j < NUM_POSITIONS →
      (isAnimationComplete led j = true ↔
        (getPos led j).state ≠ PositionState.ANIMATING)) := by
  have hidx : ∃ i, m.slots.findIdx? (fun s => !s.active) = some i := by
    rcases hne : m.slots.findIdx? (fun s => !s.active) with _ | i
    · obtain ⟨qc, hmem, hq⟩ := hfree
      have := List.findIdx?_eq_none_iff.mp hne qc hmem
      rw [hq] at this
      cases this
    · exact ⟨i, hne⟩
  obtain ⟨i, hidx⟩ := hidx
  have hexec := executeCommand_success m cmd now i hidx hact
  obtain ⟨mapping, hmap, hlast, hgetpos, _⟩ :=
    ledSuccess_spec m.led cmd.positionIndex now hpos hlen
  refine ⟨?_, ⟨mapping, hmap, ?_⟩, ?_, ?_, ?_, ?_⟩
  · rw [hexec]
  · rw [hexec]
    exact hlast
  · rw [hexec]
    exact hgetpos
  · intro p hA h0
    have := runAnim_spec ts p hA (by rw [h0]; decide)
    rw [h0] at this
    simpa using this
  · intro m' qc hqact hqcmd
    constructor
    · intro hcomp
      unfold Machine.tickCommand
      rw [hqcmd, hqact, hcomp]
      rfl
    · intro hcomp
      unfold Machine.tickCommand
      rw [hqcmd, hqact, hcomp]
      rfl
  · intro led j hj
    unfold isAnimationComplete
    rw [if_neg (by omega)]
    simp

/-- Witness for C4: concrete SUCCESS dispatch at position A with id 7 and
five 80 ms-spaced update times. -/
theorem success_command_ack_and_done_witness :
    ((machineWithTouch.executeCommand successCmdA7 100).queue =
      machineWithTouch.queue.queueAck "SUCCESS" successCmdA7.position
        (effId successCmdA7)) ∧
    (runAnim { state := PositionState.ANIMATING, animationStep := 0,
               lastAnimationTime := 100, blinkOn := false }
        [180, 260, 340, 420, 500]).state =
      (if SUCCESS_EXPANSION_RADIUS ≤
          gatedAdvances 100 [180, 260, 340, 420, 500] then
        PositionState.EXPANDED
      else PositionState.ANIMATING) :=
  ⟨(success_command_ack_and_done_after_radius_steps machineWithTouch
      successCmdA7 100 [180, 260, 340, 420, 500] rfl (by decide) (by decide)
      ⟨inactiveSlot, by decide, rfl⟩).1,
   ((success_command_ack_and_done_after_radius_steps machineWithTouch
      successCmdA7 100 [180, 260, 340, 420, 500] rfl (by decide) (by decide)
      ⟨inactiveSlot, by decide, rfl⟩).2.2.2.1
      { state := PositionState.ANIMATING, animationStep := 0,
        lastAnimationTime := 100, blinkOn := false } rfl rfl).1⟩

-- ===========================================================================
-- C6: correlation-id round trip
-- ===========================================================================

/-- Membership through one enqueue whose event carries id `n`. -/
theorem mem_queue1_id {q : EventQueue} {e x : Event} {n : Nat}
    (hx : x.commandId = n) (h : e ∈ (q.enqueue1 x).events) :
    e ∈ q.events ∨ e.commandId = n := by
  rcases mem_enqueue1 h with h | h
  · exact Or.inl h
  · rw [h]
    exact Or.inr hx

/-- Membership through two enqueues whose events both carry id `n`. -/
theorem mem_queue2_id {q : EventQueue} {e x y : Event} {n : Nat}
    (hx : x.commandId = n) (hy : y.commandId = n)
    (h : e ∈ ((q.enqueue1 x).enqueue1 y).events) :
    e ∈ q.events ∨ e.commandId = n := by
  rcases mem_enqueue1 h with h | h
  · exact mem_queue1_id hx h
  · rw [h]
    exact Or.inr hy

/-- Every event `executeCommand` adds to the queue carries exactly the
dispatched command's effective correlation id. -/
theorem executeCommand_id (m : Machine) (cmd : ParsedCommand) (now : Nat)
    (e : Event) (he : e ∈ (m.executeCommand cmd now).queue.events) :
    e ∈ m.queue.events ∨ e.commandId = effId cmd := by
  rcases cmd with ⟨a, hasP, pos, pi, hasId, idv, vld⟩
  rcases a
  all_goals dsimp only [Machine.executeCommand, Machine.executeInstant,
    Machine.queueCommand, actionIsLongRunning, actionToString] at he
  case INVALID => exact mem_queue1_id rfl he
  case SHOW =>
    rcases hr : ledShow m.led pi with ⟨led1, ok⟩
    rw [hr] at he
    cases ok
    · exact mem_queue1_id rfl he
    · exact mem_queue1_id rfl he
  case HIDE =>
    rcases hr : ledHide m.led pi with ⟨led1, ok⟩
    rw [hr] at he
    cases ok
    · exact mem_queue1_id rfl he
    · exact mem_queue1_id rfl he
  case BLINK =>
    rcases hr : ledBlink m.led pi now with ⟨led1, ok⟩
    rw [hr] at he
    cases ok
    · exact mem_queue1_id rfl he
    · exact mem_queue1_id rfl he
  case STOP_BLINK =>
    rcases hr : ledStopBlink m.led pi with ⟨led1, ok⟩
    rw [hr] at he
    cases ok
    · exact mem_queue1_id rfl he
    · exact mem_queue1_id rfl he
  case RECALIBRATE =>
    rcases ht : m.touch with _ | t
    · rw [ht] at he
      exact mem_queue1_id rfl he
    · rw [ht] at he
      dsimp only at he
      rcases hr : t.recalibrate pi with ⟨t1, ok⟩
      rw [hr] at he
      cases ok
      · exact mem_queue1_id rfl he
      · exact mem_queue2_id rfl rfl he
  case EXPECT_DOWN =>
    rcases ht : m.touch with _ | t
    · rw [ht] at he
      exact mem_queue1_id rfl he
    · rw [ht] at he
      exact mem_queue1_id rfl he
  case EXPECT_UP =>
    rcases ht : m.touch with _ | t
    · rw [ht] at he
      exact mem_queue1_id rfl he
    · rw [ht] at he
      exact mem_queue1_id rfl he
  case INFO => exact mem_queue1_id rfl he
  case PING => exact mem_queue1_id rfl he
  case SUCCESS =>
    rcases hf : m.slots.findIdx? (fun s => !s.active) with _ | i
    · rw [hf] at he
      exact mem_queue1_id rfl he
    · rw [hf] at he
      dsimp only at he
      rcases hls : ledSuccess m.led pi now with ⟨led1, ok⟩
      rw [hls] at he
      exact mem_queue1_id rfl he
  case SCAN =>
    rcases hf : m.slots.findIdx? (fun s => !s.active) with _ | i
    · rw [hf] at he
      exact mem_queue1_id rfl he
    · rw [hf] at he
      dsimp only at he
      rcases ht : m.touch with _ | t
      · rw [ht] at he
        exact mem_queue2_id rfl rfl he
      · rw [ht] at he
        exact mem_queue1_id rfl he
  case RECALIBRATE_ALL =>
    rcases hf : m.slots.findIdx? (fun s => !s.active) with _ | i
    · rw [hf] at he
      exact mem_queue1_id rfl he
    · rw [hf] at he
      dsimp only at he
      rcases ht : m.touch with _ | t
      · rw [ht] at he
        exact mem_queue2_id rfl rfl he
      · rw [ht] at he
        exact mem_queue1_id rfl he
  case SEQUENCE_COMPLETED =>
    rcases hf : m.slots.findIdx? (fun s => !s.active) with _ | i
    · rw [hf] at he
      exact mem_queue1_id rfl he
    · rw [hf] at he
      exact mem_queue1_id rfl he

/-- Every event `tickCommand` adds to the queue carries exactly the slot
command's effective correlation id. -/
theorem tickCommand_id (m : Machine) (qc : QueuedCommand) (e : Event)
    (he : e ∈ (m.tickCommand qc).1.queue.events) :
    e ∈ m.queue.events ∨ e.commandId = effId qc.command := by
  unfold Machine.tickCommand at he
  by_cases hact : qc.active = true
  · rcases hA : qc.command.action
    all_goals rw [hA, hact] at he
    all_goals simp only [eq_self_iff_true, not_true, if_false] at he
    · exact Or.inl he
    · exact Or.inl he
    · exact Or.inl he
    · split at he
      · exact mem_queue1_id rfl he
      · exact Or.inl he
    · exact Or.inl he
    · exact Or.inl he
    · exact Or.inl he
    · exact Or.inl he
    · exact Or.inl he
    · rcases ht : m.touch with _ | t
      · rw [ht] at he
        exact Or.inl he
      · rw [ht] at he
        dsimp only at he
        rcases hr : recalChunk SENSORS_PER_TICK t qc.scanAddress with ⟨t1, c1⟩
        rw [hr] at he
        dsimp only at he
        split at he
        · exact mem_queue1_id rfl he
        · exact Or.inl he
    · rcases ht : m.touch with _ | t
      · rw [ht] at he
        exact Or.inl he
      · rw [ht] at he
        exact mem_queue1_id rfl he
    · split at he
      · exact mem_queue1_id rfl he
      · exact Or.inl he
    · exact Or.inl he
    · exact Or.inl he
  · have hact' : qc.active = false := by simpa using hact
    rw [hact'] at he
    simp only [Bool.false_eq_true, not_false_iff, if_pos] at he
    exact Or.inl he

/-- Claim C6: correlation-id round trip.  Every event enqueued while
dispatching a command (`executeCommand`) or completing it (`tickCommand`)
carries exactly the effective id of the triggering command — the supplied
id when one was given, else the no-id sentinel rendered as absence;
dispatching EXPECT_DOWN/EXPECT_UP arms the expectation with exactly the
triggering command's effective id, arming stores exactly the supplied id,
and the debouncer's fulfillment events TOUCHED_DOWN/TOUCHED_UP carry
exactly the armed expectation's stored id (down and up respectively,
never cross-wired); spontaneous TOUCH_DOWN and TOUCH_UP events never
carry an id. -/
theorem correlation_id_round_trip :
    (∀ (m : Machine) (cmd : ParsedCommand) (now : Nat) (e : Event),
      e ∈ (m.executeCommand cmd now).queue.events →
      e ∈ m.queue.events ∨ e.commandId = effId cmd) ∧
    (∀ cmd : ParsedCommand,
      effId cmd = if cmd.hasId then cmd.id else NO_COMMAND_ID) ∧
    (∀ (m : Machine) (qc : QueuedCommand) (e : Event),
      e ∈ (m.tickCommand qc).1.queue.events →
      e ∈ m.queue.events ∨ e.commandId = effId qc.command) ∧
    (∀ l : Char, (mkTouchDown l).commandId = NO_COMMAND_ID ∧
      (mkTouchUp l).commandId = NO_COMMAND_ID) ∧
    (∀ (t : TouchState) (j id : Nat), j < NUM_TOUCH_SENSORS →
      j < t.expectDown.length →
      (t.setExpectDown j id).expectDown.getD j noExpect =
        { active := true, commandId := id }) ∧
    (∀ (t : TouchState) (j id : Nat), j < NUM_TOUCH_SENSORS →
      j < t.expectUp.length →
      (t.setExpectUp j id).expectUp.getD j noExpect =
        { active := true, commandId := id }) ∧
    (∀ (m : Machine) (cmd : ParsedCommand) (now : Nat) (t : TouchState),
      m.touch = some t → cmd.action = CommandAction.EXPECT_DOWN →
      (m.executeCommand cmd now).touch =
        some (t.setExpectDown cmd.positionIndex (effId cmd))) ∧
    (∀ (m : Machine) (cmd : ParsedCommand) (now : Nat) (t : TouchState),
      m.touch = some t → cmd.action = CommandAction.EXPECT_UP →
      (m.executeCommand cmd now).touch =
        some (t.setExpectUp cmd.positionIndex (effId cmd))) ∧
    (∀ (now j : Nat) (s : TouchSensorState) (eD eU : Expectation) (e : Event),
      (debounceSensorEmit now j s eD eU).2.2.2 = some e →
      (e.type = EventType.TOUCHED_DOWN →
        eD.active = true ∧ e = mkTouchedDown (indexToLetter j) eD.commandId) ∧
      (e.type = EventType.TOUCHED_UP →
        eU.active = true ∧ e = mkTouchedUp (indexToLetter j) eU.commandId) ∧
      (e.type = EventType.TOUCH_DOWN → e = mkTouchDown (indexToLetter j)) ∧
      (e.type = EventType.TOUCH_UP → e = mkTouchUp (indexToLetter j))) := by
  refine ⟨executeCommand_id, fun _ => rfl, tickCommand_id,
    fun l => ⟨rfl, rfl⟩, ?_, ?_, ?_, ?_, ?_⟩
  · intro t j id hj hlen
    unfold TouchState.setExpectDown
    rw [if_neg (by omega)]
    dsimp only
    rw [List.getD_eq_getElem?_getD, List.getElem?_set_self (by omega)]
    rfl
  · intro t j id hj hlen
    unfold TouchState.setExpectUp
    rw [if_neg (by omega)]
    dsimp only
    rw [List.getD_eq_getElem?_getD, List.getElem?_set_self (by omega)]
    rfl
  · intro m cmd now t ht hA
    rcases cmd with ⟨a, hasP, pos, pi, hasId, idv, vld⟩
    dsimp only at hA ⊢
    subst hA
    dsimp only [Machine.executeCommand, Machine.executeInstant,
      actionIsLongRunning, actionToString]
    rw [ht]
    simp only [Bool.false_eq_true, if_false]
  · intro m cmd now t ht hA
    rcases cmd with ⟨a, hasP, pos, pi, hasId, idv, vld⟩
    dsimp only at hA ⊢
    subst hA
    dsimp only [Machine.executeCommand, Machine.executeInstant,
      actionIsLongRunning, actionToString]
    rw [ht]
    simp only [Bool.false_eq_true, if_false]
  · intro now j s eD eU e h
    unfold debounceSensorEmit at h
    dsimp only at h
    split_ifs at h <;> dsimp only at h
    all_goals
      obtain rfl := Option.some.inj h
    all_goals refine ⟨?_, ?_, ?_, ?_⟩ <;> intro ht <;>
      simp_all [mkTouchedDown, mkTouchDown, mkTouchedUp, mkTouchUp]

/-- Witness for C6: a concrete PING dispatch whose ACK carries id 7, and a
concrete armed press whose fulfillment carries exactly the armed id 9. -/
theorem correlation_id_round_trip_witness :
    (mkAck "PING" noPosChar 7 ∈ machineNoTouch.queue.events ∨
      (mkAck "PING" noPosChar 7).commandId =
        effId { initCmd with
                action := CommandAction.PING, hasId := true, id := 7 }) ∧
    ((mkTouchedDown (indexToLetter 0) 9).type = EventType.TOUCHED_DOWN →
      armedSensorSys.eD.active = true ∧
      mkTouchedDown (indexToLetter 0) 9 =
        mkTouchedDown (indexToLetter 0) armedSensorSys.eD.commandId) :=
  ⟨correlation_id_round_trip.1 machineNoTouch
    { initCmd with action := CommandAction.PING, hasId := true, id := 7 } 0
    (mkAck "PING" noPosChar 7) (by decide),
   (correlation_id_round_trip.2.2.2.2.2.2.2.2 40 0 armedSensorSys.s
     armedSensorSys.eD armedSensorSys.eU (mkTouchedDown (indexToLetter 0) 9)
     (by decide)).1⟩
